import Mathlib

/-!
# Mailslots: a shallow embedding of the five programs

The repository holds five small Win32 console programs built on mailslots:

* `ClientMS.cpp`              the broadcaster (one message to each target),
* `ClientMS_Performance.cpp`  the performance harness (1000 writes on one handle),
* `ServerMS.cpp`              the single-message receiver (300 bytes),
* `ServerMS_500bytes.cpp`     the single-message receiver (500 bytes),
* `ServerMS_MultiMessage.cpp` the receiver that loops until a read fails.

Every program is embedded as a pure function from the outcomes of the
operating-system calls it issues (the handle or `BOOL` returned, the value
`GetLastError` holds afterwards, the bytes a read stored) to the ordered trace
of the calls and console lines it produces together with its exit code.

Conventions of the embedding:

* narrow (code page 1251) strings and wide strings are both `String`; one
  `Char` stands for one byte of a narrow string, so `strlen` is `String.length`;
* `MultiByteToWideChar` is an operating-system routine and is a parameter;
* the counters declared `int` in the sources are unbounded integers: the
  statements about them concern runs in which they stay within the range of
  `int`, as the behaviour of C++ is undefined beyond it;
* `double` values are exact rationals extended with the IEEE special values
  that a division by zero produces (no rounding, no signed zero);
* the trace records the mailslot calls (`CreateFile`, `CreateMailslot`,
  `WriteFile`, `ReadFile`, `CloseHandle`) and the console lines; the console
  code-page calls and the performance-counter queries are not recorded.
-/

namespace Mailslots

/-! ## Win32 vocabulary -/

abbrev DWORD := Nat

abbrev HANDLE := Int

/-- The value `CreateFile` and `CreateMailslot` return on failure, `(HANDLE)-1`. -/
def INVALID_HANDLE_VALUE : HANDLE := -1

/-! The error codes of `winerror.h` that the sources name. -/

def ERROR_FILE_NOT_FOUND : DWORD := 2
def ERROR_PATH_NOT_FOUND : DWORD := 3
def ERROR_INVALID_PARAMETER : DWORD := 87
def ERROR_BROKEN_PIPE : DWORD := 109
def ERROR_INSUFFICIENT_BUFFER : DWORD := 122
def ERROR_ALREADY_EXISTS : DWORD := 183
def ERROR_PIPE_BUSY : DWORD := 231
def ERROR_TIMEOUT : DWORD := 1460

/-- Number of bytes of a narrow C string before its terminator. -/
def strlen (s : String) : Nat := s.length

/-! ## `double` in exact arithmetic -/

/-- A `double`: an exact rational, or one of the special values of IEEE 754. -/
inductive Dbl where
  | fin (q : ℚ)
  | posInf
  | negInf
  | nan
  deriving DecidableEq

namespace Dbl

/-- Conversion `(double)n` of an integer. -/
def ofInt (n : Int) : Dbl := fin n

/-- The C++ operator `/` on `double`: a non-zero value over zero is an infinity,
zero over zero and infinity over infinity are NaN. -/
def div : Dbl → Dbl → Dbl
  | nan, _ => nan
  | _, nan => nan
  | fin a, fin b =>
    if b = 0 then (if a = 0 then nan else if 0 < a then posInf else negInf) else fin (a / b)
  | fin _, posInf => fin 0
  | fin _, negInf => fin 0
  | posInf, fin b => if 0 ≤ b then posInf else negInf
  | negInf, fin b => if 0 ≤ b then negInf else posInf
  | posInf, posInf => nan
  | posInf, negInf => nan
  | negInf, posInf => nan
  | negInf, negInf => nan

/-- The C++ operator `*` on `double`: zero times an infinity is NaN. -/
def mul : Dbl → Dbl → Dbl
  | nan, _ => nan
  | _, nan => nan
  | fin a, fin b => fin (a * b)
  | fin a, posInf => if a = 0 then nan else if 0 < a then posInf else negInf
  | fin a, negInf => if a = 0 then nan else if 0 < a then negInf else posInf
  | posInf, fin b => if b = 0 then nan else if 0 < b then posInf else negInf
  | negInf, fin b => if b = 0 then nan else if 0 < b then negInf else posInf
  | posInf, posInf => posInf
  | posInf, negInf => negInf
  | negInf, posInf => negInf
  | negInf, negInf => posInf

end Dbl

/-! ## Traces and outcomes -/

/-- One observable step of a program: a mailslot call or a console line.
A line is the text of one `<<` chain up to its `std::endl`. -/
inductive Event where
  | createFile (lpFileName : String)
  | createMailslot (lpName : String) (nMaxMessageSize : Nat) (lReadTimeout : Nat)
  | writeFile (hFile : HANDLE) (lpBuffer : String) (nNumberOfBytesToWrite : Nat)
  | readFile (hFile : HANDLE) (nNumberOfBytesToRead : Nat)
  | closeHandle (hObject : HANDLE)
  | cout (line : String)
  | cerr (line : String)
  | wcout (line : String)
  | coutFixed (label : String) (precision : Nat) (value : Dbl) (suffix : String)
  deriving DecidableEq

/-- What a `CreateFile` or `CreateMailslot` call yields: the handle returned and
the value `GetLastError` holds after the call. -/
structure OpenOutcome where
  handle : HANDLE
  lastError : DWORD
  deriving DecidableEq

/-- What a `WriteFile` call yields. -/
structure WriteOutcome where
  writeResult : Bool
  bytesWritten : DWORD
  lastError : DWORD
  deriving DecidableEq

/-- What a `ReadFile` call yields; `data` are the bytes it stored at the start
of the buffer. -/
structure ReadOutcome where
  readResult : Bool
  bytesRead : DWORD
  data : List Char
  lastError : DWORD
  deriving DecidableEq

/-- The outcomes the broadcaster meets on one target: of the `CreateFile` and of
the `WriteFile` that follows a successful open. -/
structure TargetOutcome where
  opened : OpenOutcome
  written : WriteOutcome
  deriving DecidableEq

/-- The open succeeded: the handle is not `INVALID_HANDLE_VALUE`. -/
def OpenOutcome.ok (o : OpenOutcome) : Bool :=
  decide (o.handle ≠ INVALID_HANDLE_VALUE)

/-- The open and the write of a target both succeeded. -/
def TargetOutcome.succeeded (o : TargetOutcome) : Bool :=
  o.opened.ok && o.written.writeResult

/-- How many of the first `n` writes succeeded. -/
def successfulWrites (writes : Nat → WriteOutcome) (n : Nat) : Nat :=
  ((List.range n).filter fun i => (writes i).writeResult).length

/-- How many of the first `n` writes failed. -/
def failedWrites (writes : Nat → WriteOutcome) (n : Nat) : Nat :=
  ((List.range n).filter fun i => !(writes i).writeResult).length

/-- The readings of the performance counter. -/
structure Clock where
  frequency : Int
  startTime : Int
  endTime : Int
  deriving DecidableEq

/-- The measured time in seconds, as an exact quotient of the tick difference by
the frequency. -/
def elapsedExact (clock : Clock) : ℚ :=
  ((clock.endTime - clock.startTime : Int) : ℚ) / (clock.frequency : ℚ)

/-- A finished run: what the process did and the value `main` returned. -/
structure Run where
  trace : List Event
  exitCode : Int
  deriving DecidableEq

/-! ### Projections of a trace -/

/-- The names passed to `CreateFile`, in call order. -/
def opens (trace : List Event) : List String :=
  trace.filterMap fun e =>
    match e with
    | Event.createFile n => some n
    | _ => none

/-- The handles passed to `WriteFile`, in call order. -/
def writeHandles (trace : List Event) : List HANDLE :=
  trace.filterMap fun e =>
    match e with
    | Event.writeFile h _ _ => some h
    | _ => none

/-- The handles passed to `ReadFile`, in call order. -/
def readHandles (trace : List Event) : List HANDLE :=
  trace.filterMap fun e =>
    match e with
    | Event.readFile h _ => some h
    | _ => none

/-- The lines written to `std::cerr`, in order. -/
def cerrLines (trace : List Event) : List String :=
  trace.filterMap fun e =>
    match e with
    | Event.cerr l => some l
    | _ => none

/-- The lines written to `std::cout`, in order. -/
def coutLines (trace : List Event) : List String :=
  trace.filterMap fun e =>
    match e with
    | Event.cout l => some l
    | _ => none

/-- The handles passed to `CloseHandle`, in call order. -/
def closes (trace : List Event) : List HANDLE :=
  trace.filterMap fun e =>
    match e with
    | Event.closeHandle h => some h
    | _ => none

/-- The byte counts requested from `ReadFile`, in call order. -/
def readRequests (trace : List Event) : List Nat :=
  trace.filterMap fun e =>
    match e with
    | Event.readFile _ n => some n
    | _ => none

/-- The maximum message sizes passed to `CreateMailslot`, in call order. -/
def maxMessageSizes (trace : List Event) : List Nat :=
  trace.filterMap fun e =>
    match e with
    | Event.createMailslot _ n _ => some n
    | _ => none

/-- The event is a call that takes a handle: a write, a read or a close. -/
def usesHandle : Event → Bool
  | Event.writeFile _ _ _ => true
  | Event.readFile _ _ => true
  | Event.closeHandle _ => true
  | _ => false

/-- The calls of a trace that take a handle, in call order. -/
def handleCalls (trace : List Event) : List Event :=
  trace.filter usesHandle

/-- What follows the first `CloseHandle` of a trace. -/
def afterClose : List Event → List Event
  | [] => []
  | Event.closeHandle _ :: t => t
  | _ :: t => afterClose t

/-- The release discipline of a trace for the handle an open or create call
returned: after a failed call no call takes a handle; after a successful one
the handle is closed exactly once and no call takes a handle afterwards. -/
def releaseDiscipline (o : OpenOutcome) (trace : List Event) : Prop :=
  if o.handle = INVALID_HANDLE_VALUE then handleCalls trace = []
  else closes trace = [o.handle] ∧ handleCalls (afterClose trace) = []

instance (o : OpenOutcome) (trace : List Event) : Decidable (releaseDiscipline o trace) :=
  inferInstanceAs (Decidable (if o.handle = INVALID_HANDLE_VALUE then handleCalls trace = []
    else closes trace = [o.handle] ∧ handleCalls (afterClose trace) = []))

/-! ## `ClientMS.cpp`: the broadcaster -/

namespace ClientMS

/-- The line `HandleMailslotError` prints; `error` is what `GetLastError` returns. -/
def HandleMailslotError (error : DWORD) (operation : String) : List Event :=
  [Event.cerr ("Error in operation '" ++ operation ++ "': " ++
    (if error = ERROR_INVALID_PARAMETER then "Invalid parameter"
     else if error = ERROR_FILE_NOT_FOUND then "Mailslot not found"
     else if error = ERROR_PATH_NOT_FOUND then "Path not found"
     else if error = ERROR_PIPE_BUSY then "Mailslot is busy"
     else if error = ERROR_BROKEN_PIPE then "Broken pipe"
     else if error = ERROR_TIMEOUT then "Timeout"
     else if error = ERROR_INSUFFICIENT_BUFFER then "Insufficient buffer"
     else "Error code: " ++ toString error))]

/-- Conversion of a narrow string to a wide one; the empty string is answered
without calling the operating system. -/
def to_wstring_from_ansi (MultiByteToWideChar : String → String) (s : String) : String :=
  if s = "" then "" else MultiByteToWideChar s

/-- One send: open the mailslot, write the message, close the handle. Returns
the `bool` of the source and the trace of the call. -/
def SendMessageToServer (mailslotName : String) (message : String) (o : TargetOutcome) :
    Bool × List Event :=
  let hMailslot := o.opened.handle
  if hMailslot = INVALID_HANDLE_VALUE then
    (false, [Event.createFile mailslotName]
      ++ HandleMailslotError o.opened.lastError "CreateFile"
      ++ [Event.cerr "Failed to open Mailslot"])
  else if o.written.writeResult = false then
    (false, [Event.createFile mailslotName, Event.writeFile hMailslot message (strlen message)]
      ++ HandleMailslotError o.written.lastError "WriteFile"
      ++ [Event.closeHandle hMailslot])
  else
    (true, [Event.createFile mailslotName, Event.writeFile hMailslot message (strlen message),
      Event.closeHandle hMailslot,
      Event.cout ("Message sent (" ++ toString o.written.bytesWritten ++ " bytes): " ++ message)])

/-- The payload. -/
def message : String := "Hello from Maislot-client"

/-- The target list `servers` that `main` builds from `argv` (`argv[0]` is the
program name, `argc` is the length of `argv`). -/
def servers (MultiByteToWideChar : String → String) (argv : List String) : List String :=
  if argv.length > 1 then
    (argv.drop 1).map fun computerNameA =>
      if computerNameA = "." ∨ computerNameA = "localhost" then
        "\\\\.\\mailslot\\Box"
      else
        "\\\\" ++ to_wstring_from_ansi MultiByteToWideChar computerNameA ++ "\\mailslot\\Box"
  else
    ["\\\\.\\mailslot\\Box"]

/-- The send loop of `main` from index `i` on, over the targets still to visit;
`world j` are the outcomes met on target `j`. Returns the final `successCount`
and the trace. -/
def sendLoop (world : Nat → TargetOutcome) : Nat → List String → Int → Int × List Event
  | _, [], successCount => (successCount, [])
  | i, server :: rest, successCount =>
    let sent := SendMessageToServer server message (world i)
    let here := [Event.wcout ("[" ++ toString (i + 1) ++ "] Sending attempt")] ++ sent.2 ++
      (if sent.1 then []
       else [Event.wcout "Failed to send", Event.cout "Make sure ServerMS is running."])
    let next := sendLoop world (i + 1) rest (if sent.1 then successCount + 1 else successCount)
    (next.1, here ++ next.2)

/-- The broadcaster. -/
def main (MultiByteToWideChar : String → String) (argv : List String)
    (world : Nat → TargetOutcome) : Run :=
  let servers := servers MultiByteToWideChar argv
  let sent := sendLoop world 0 servers 0
  let successCount := sent.1
  { trace := sent.2 ++
      [Event.cout ("\nResult: sent successfully to " ++ toString successCount ++ " of " ++
         toString servers.length ++ " server(s)"),
       Event.cout "Client is exiting."]
    exitCode := if successCount = servers.length then 0 else 1 }

end ClientMS

/-! ## `ClientMS_Performance.cpp`: the performance harness -/

namespace ClientMS_Performance

/-- The line `HandleMailslotError` prints; `error` is what `GetLastError` returns. -/
def HandleMailslotError (error : DWORD) (operation : String) : List Event :=
  [Event.cerr ("Error in operation '" ++ operation ++ "': " ++
    (if error = ERROR_INVALID_PARAMETER then "Invalid parameter"
     else if error = ERROR_FILE_NOT_FOUND then "Mailslot not found"
     else if error = ERROR_PATH_NOT_FOUND then "Path not found"
     else if error = ERROR_PIPE_BUSY then "Mailslot is busy"
     else if error = ERROR_BROKEN_PIPE then "Broken pipe"
     else if error = ERROR_TIMEOUT then "Timeout"
     else if error = ERROR_INSUFFICIENT_BUFFER then "Insufficient buffer"
     else "Error code: " ++ toString error))]

def MESSAGE_COUNT : Nat := 1000

/-- The payload. -/
def message : String := "Hello from Maislot-client"

def messageLen : Nat := strlen message

/-- The local lambda of `main`. -/
def to_wstring_from_ansi (MultiByteToWideChar : String → String) (s : String) : String :=
  if s = "" then "" else MultiByteToWideChar s

/-- The target address `mailslotNameW` that `main` builds from `argv`. -/
def mailslotNameW (MultiByteToWideChar : String → String) (argv : List String) : String :=
  match argv with
  | _ :: computerNameA :: _ =>
    "\\\\" ++ to_wstring_from_ansi MultiByteToWideChar computerNameA ++ "\\mailslot\\Box"
  | _ => "\\\\.\\mailslot\\Box"

/-- The counters of the batch and what it did. -/
structure Batch where
  successCount : Int
  errorCount : Int
  trace : List Event
  deriving DecidableEq

/-- The batch loop with `n` iterations left, at index `i`; `writes j` is the
outcome of the `WriteFile` of iteration `j`. -/
def sendLoop (hMailslot : HANDLE) (writes : Nat → WriteOutcome) :
    Nat → Nat → Int → Int → Batch
  | 0, _, successCount, errorCount =>
    { successCount := successCount, errorCount := errorCount, trace := [] }
  | n + 1, i, successCount, errorCount =>
    let w := writes i
    let errorCount1 := if w.writeResult = false then errorCount + 1 else errorCount
    let successCount1 := if w.writeResult = false then successCount else successCount + 1
    let here := [Event.writeFile hMailslot message messageLen] ++
      (if w.writeResult = false ∧ errorCount1 ≤ 5 then HandleMailslotError w.lastError "WriteFile"
       else []) ++
      (if (i + 1) % 100 = 0 then
         [Event.cout ("Sent: " ++ toString (i + 1) ++ " / " ++ toString MESSAGE_COUNT)]
       else [])
    let next := sendLoop hMailslot writes n (i + 1) successCount1 errorCount1
    { next with trace := here ++ next.trace }

/-- The variable `elapsedSeconds`. -/
def elapsedSeconds (clock : Clock) : Dbl :=
  Dbl.div (Dbl.ofInt (clock.endTime - clock.startTime)) (Dbl.ofInt clock.frequency)

/-- The variable `messagesPerSecond`. -/
def messagesPerSecond (successCount : Int) (clock : Clock) : Dbl :=
  Dbl.div (Dbl.ofInt successCount) (elapsedSeconds clock)

/-- The variable `totalBytes`. -/
def totalBytes (successCount : Int) : Dbl :=
  Dbl.mul (Dbl.ofInt successCount) (Dbl.ofInt messageLen)

/-- The variable `bytesPerSecond`. -/
def bytesPerSecond (successCount : Int) (clock : Clock) : Dbl :=
  Dbl.div (totalBytes successCount) (elapsedSeconds clock)

/-- The report block printed after the batch. -/
def report (successCount errorCount : Int) (clock : Clock) : List Event :=
  [Event.cout "\n========== MEASUREMENT RESULTS ==========",
   Event.cout ("Messages: " ++ toString MESSAGE_COUNT),
   Event.cout ("Succeeded: " ++ toString successCount),
   Event.cout ("Errors: " ++ toString errorCount),
   Event.coutFixed "Elapsed: " 3 (elapsedSeconds clock) " s",
   Event.coutFixed "Rate:    " 2 (messagesPerSecond successCount clock) " msg/s",
   Event.coutFixed "Throughput: " 2 (bytesPerSecond successCount clock) " B/s",
   Event.coutFixed "Throughput: " 2 (Dbl.div (bytesPerSecond successCount clock) (Dbl.fin 1024))
     " KB/s",
   Event.cout "========================================="]

/-- The performance harness. -/
def main (MultiByteToWideChar : String → String) (argv : List String) (opened : OpenOutcome)
    (writes : Nat → WriteOutcome) (clock : Clock) : Run :=
  let mailslotNameW := mailslotNameW MultiByteToWideChar argv
  let intro :=
    [Event.cout ("Performance test: sending " ++ toString MESSAGE_COUNT ++ " messages"),
     Event.wcout ("Server: " ++ mailslotNameW),
     Event.cout ("Message size: " ++ toString messageLen ++ " bytes"),
     Event.createFile mailslotNameW]
  let hMailslot := opened.handle
  if hMailslot = INVALID_HANDLE_VALUE then
    { trace := intro ++ HandleMailslotError opened.lastError "CreateFile" ++
        [Event.cout "Failed to open Mailslot", Event.cout "Make sure ServerMS is running."]
      exitCode := 1 }
  else
    let batch := sendLoop hMailslot writes MESSAGE_COUNT 0 0 0
    { trace := intro ++ [Event.cout "Mailslot opened. Starting to send..."] ++ batch.trace ++
        [Event.closeHandle hMailslot] ++ report batch.successCount batch.errorCount clock ++
        [Event.cout "\nClient is exiting."]
      exitCode := if batch.errorCount = 0 then 0 else 1 }

end ClientMS_Performance

/-! ## The receivers -/

/-- The declared size of the receive buffer, `char buffer[512]`. -/
def bufferSize : Nat := 512

/-- The buffer after a `ReadFile` that stored `data` at its start. -/
def store (data buffer : List Char) : List Char :=
  data ++ buffer.drop data.length

/-- The C string a buffer holds: its bytes before the first terminator. -/
def cstr (buffer : List Char) : String :=
  String.mk (buffer.takeWhile fun c => c ≠ Char.ofNat 0)

/-! ### `ServerMS.cpp`: one message of at most 300 bytes -/

namespace ServerMS

/-- The line `HandleMailslotError` prints; `error` is what `GetLastError` returns. -/
def HandleMailslotError (error : DWORD) (operation : String) : List Event :=
  [Event.cerr ("Error in operation '" ++ operation ++ "': " ++
    (if error = ERROR_INVALID_PARAMETER then "Invalid parameter"
     else if error = ERROR_ALREADY_EXISTS then "Mailslot already exists"
     else if error = ERROR_PIPE_BUSY then "Mailslot is busy"
     else if error = ERROR_BROKEN_PIPE then "Broken pipe"
     else if error = ERROR_TIMEOUT then "Timeout"
     else if error = ERROR_INSUFFICIENT_BUFFER then "Insufficient buffer"
     else "Error code: " ++ toString error))]

def mailslotName : String := "\\\\.\\mailslot\\Box"

/-- The single-message receiver; `buffer` is the content the uninitialised
buffer happens to have. -/
def main (created : OpenOutcome) (read : ReadOutcome) (buffer : List Char) : Run :=
  let hMailslot := created.handle
  let create := Event.createMailslot mailslotName 300 180000
  if hMailslot = INVALID_HANDLE_VALUE then
    { trace := create :: HandleMailslotError created.lastError "CreateMailslot"
      exitCode := 1 }
  else
    let intro := [create, Event.cout "Mailslot created",
      Event.cout "Waiting for client message...", Event.readFile hMailslot (bufferSize - 1)]
    if read.readResult = false then
      let error := read.lastError
      { trace := intro ++
          (if error = ERROR_TIMEOUT then [Event.cout "Message wait timeout (3 minutes)"]
           else HandleMailslotError error "ReadFile") ++
          [Event.closeHandle hMailslot]
        exitCode := 1 }
    else
      let bytesRead := read.bytesRead
      let buffer := store read.data buffer
      { trace := intro ++
          (if bytesRead > 0 then
             [Event.cout ("Received message (" ++ toString bytesRead ++ " bytes):"),
              Event.cout (cstr (buffer.set bytesRead (Char.ofNat 0)))]
           else [Event.cout "Empty message received"]) ++
          [Event.closeHandle hMailslot, Event.cout "Server shutting down."]
        exitCode := 0 }

end ServerMS

/-! ### `ServerMS_500bytes.cpp`: one message of at most 500 bytes -/

namespace ServerMS_500bytes

/-- The line `HandleMailslotError` prints; `error` is what `GetLastError` returns. -/
def HandleMailslotError (error : DWORD) (operation : String) : List Event :=
  [Event.cerr ("Error in operation '" ++ operation ++ "': " ++
    (if error = ERROR_INVALID_PARAMETER then "Invalid parameter"
     else if error = ERROR_ALREADY_EXISTS then "Mailslot already exists"
     else if error = ERROR_PIPE_BUSY then "Mailslot is busy"
     else if error = ERROR_BROKEN_PIPE then "Broken pipe"
     else if error = ERROR_TIMEOUT then "Timeout"
     else if error = ERROR_INSUFFICIENT_BUFFER then "Insufficient buffer"
     else "Error code: " ++ toString error))]

def mailslotName : String := "\\\\.\\mailslot\\Box"

/-- The single-message receiver of the 500-byte variant; `buffer` is the content
the uninitialised buffer happens to have. -/
def main (created : OpenOutcome) (read : ReadOutcome) (buffer : List Char) : Run :=
  let hMailslot := created.handle
  let create := Event.createMailslot mailslotName 500 180000
  if hMailslot = INVALID_HANDLE_VALUE then
    { trace := create :: HandleMailslotError created.lastError "CreateMailslot"
      exitCode := 1 }
  else
    let intro := [create, Event.cout "Mailslot created",
      Event.cout "Max message size: 500 bytes",
      Event.cout "Waiting for client message...", Event.readFile hMailslot (bufferSize - 1)]
    if read.readResult = false then
      let error := read.lastError
      { trace := intro ++
          (if error = ERROR_TIMEOUT then [Event.cout "Message wait timeout (3 minutes)"]
           else HandleMailslotError error "ReadFile") ++
          [Event.closeHandle hMailslot]
        exitCode := 1 }
    else
      let bytesRead := read.bytesRead
      let buffer := store read.data buffer
      { trace := intro ++
          (if bytesRead > 0 then
             [Event.cout ("Received message (" ++ toString bytesRead ++ " bytes):"),
              Event.cout (cstr (buffer.set bytesRead (Char.ofNat 0)))]
           else [Event.cout "Empty message received"]) ++
          [Event.closeHandle hMailslot, Event.cout "Server shutting down."]
        exitCode := 0 }

end ServerMS_500bytes

/-! ### `ServerMS_MultiMessage.cpp`: messages until a read fails -/

namespace ServerMS_MultiMessage

/-- The line `HandleMailslotError` prints; `error` is what `GetLastError` returns. -/
def HandleMailslotError (error : DWORD) (operation : String) : List Event :=
  [Event.cerr ("Error in operation '" ++ operation ++ "': " ++
    (if error = ERROR_INVALID_PARAMETER then "Invalid parameter"
     else if error = ERROR_ALREADY_EXISTS then "Mailslot already exists"
     else if error = ERROR_PIPE_BUSY then "Mailslot is busy"
     else if error = ERROR_BROKEN_PIPE then "Broken pipe"
     else if error = ERROR_TIMEOUT then "Timeout"
     else if error = ERROR_INSUFFICIENT_BUFFER then "Insufficient buffer"
     else "Error code: " ++ toString error))]

def mailslotName : String := "\\\\.\\mailslot\\Box"

/-- What one pass through block 3 of the loop prints, `messageCount` being the
counter after its increment and `buffer` the buffer after the read. -/
def process (messageCount : Int) (bytesRead : DWORD) (buffer : List Char) : List Event :=
  (if bytesRead > 0 then
     [Event.cout ("[" ++ toString messageCount ++ "] Received (" ++ toString bytesRead ++
        " bytes): " ++ cstr (buffer.set bytesRead (Char.ofNat 0)))]
   else [Event.cout ("[" ++ toString messageCount ++ "] Empty message")]) ++
  (if messageCount % 100 = 0 then
     [Event.cout ("Processed messages: " ++ toString messageCount)]
   else [])

/-- The state of the loop when it is left. -/
structure LoopEnd where
  messageCount : Int
  trace : List Event
  deriving DecidableEq

/-- The loop `while (true)` of `main`, run on the outcomes of its successive
`ReadFile` calls. The loop has no exit of its own: when the outcomes supplied
are used up and none was a failure, the process is still blocked in `ReadFile`
and there is no result. -/
def readLoop (hMailslot : HANDLE) : List ReadOutcome → List Char → Int → Option LoopEnd
  | [], _, _ => none
  | r :: rest, buffer, messageCount =>
    if r.readResult = false then
      let error := r.lastError
      if error = ERROR_TIMEOUT then
        some { messageCount := messageCount
               trace := [Event.readFile hMailslot (bufferSize - 1),
                 Event.cout "\nMessage wait timeout (3 minutes)",
                 Event.cout ("Total messages received: " ++ toString messageCount)] }
      else
        some { messageCount := messageCount
               trace := Event.readFile hMailslot (bufferSize - 1) ::
                 HandleMailslotError error "ReadFile" }
    else
      let bytesRead := r.bytesRead
      let buffer1 := store r.data buffer
      let messageCount1 := messageCount + 1
      let buffer2 := if bytesRead > 0 then buffer1.set bytesRead (Char.ofNat 0) else buffer1
      match readLoop hMailslot rest buffer2 messageCount1 with
      | none => none
      | some e =>
        some { e with trace := [Event.readFile hMailslot (bufferSize - 1)] ++
                 process messageCount1 bytesRead buffer1 ++ e.trace }

/-- The multi-message receiver; `buffer` is the content the uninitialised buffer
happens to have. -/
def main (created : OpenOutcome) (reads : List ReadOutcome) (buffer : List Char) : Option Run :=
  let hMailslot := created.handle
  let create := Event.createMailslot mailslotName 300 180000
  if hMailslot = INVALID_HANDLE_VALUE then
    some { trace := create :: HandleMailslotError created.lastError "CreateMailslot"
           exitCode := 1 }
  else
    let intro := [create, Event.cout "Mailslot created",
      Event.cout "Waiting for client messages...",
      Event.cout "Press Ctrl+C or close the window to exit"]
    match readLoop hMailslot reads buffer 0 with
    | none => none
    | some e =>
      some { trace := intro ++ e.trace ++
               [Event.closeHandle hMailslot,
                Event.cout ("\nServer shutting down. Total messages: " ++
                  toString e.messageCount)]
             exitCode := 0 }

end ServerMS_MultiMessage

/-! ## The address resolver of the broadcaster -/

/-- Indexing a mapped list at the position that follows a prefix. -/
theorem getElem?_map_middle {α β : Type} (f : α → β) (pre post : List α) (a : α) :
    ((pre ++ a :: post).map f)[pre.length]? = some (f a) := by
  rw [List.getElem?_map, List.getElem?_append_right (le_refl _)]
  simp

/-- With at least one target, `servers` maps the targets one by one. -/
theorem servers_cons_cons (mb : String → String) (prog t : String) (ts : List String) :
    ClientMS.servers mb (prog :: t :: ts) =
      (t :: ts).map fun computerNameA =>
        if computerNameA = "." ∨ computerNameA = "localhost" then "\\\\.\\mailslot\\Box"
        else "\\\\" ++ ClientMS.to_wstring_from_ansi mb computerNameA ++ "\\mailslot\\Box" := by
  simp [ClientMS.servers]

/-- With a target at position `pre.length`, `servers` maps the targets one by one. -/
theorem servers_middle (mb : String → String) (prog h : String) (pre post : List String) :
    ClientMS.servers mb (prog :: (pre ++ h :: post)) =
      (pre ++ h :: post).map fun computerNameA =>
        if computerNameA = "." ∨ computerNameA = "localhost" then "\\\\.\\mailslot\\Box"
        else "\\\\" ++ ClientMS.to_wstring_from_ansi mb computerNameA ++ "\\mailslot\\Box" := by
  cases pre with
  | nil => exact servers_cons_cons mb prog h post
  | cons p ps => exact servers_cons_cons mb prog p (ps ++ h :: post)

/-- C1: for every list of n target specifiers the resolver of the broadcaster
produces exactly max(n,1) addresses; for the empty list the single address is
the local address `\\.\mailslot\Box`; and the tokens "." and "localhost", at any
position of a target list, resolve to that same address. -/
theorem resolver_count_and_local_alias (mb : String → String) (prog : String)
    (targets pre post : List String) :
    (ClientMS.servers mb (prog :: targets)).length = max targets.length 1 ∧
    ClientMS.servers mb [prog] = ["\\\\.\\mailslot\\Box"] ∧
    (ClientMS.servers mb (prog :: (pre ++ "." :: post)))[pre.length]? =
      (ClientMS.servers mb [prog])[0]? ∧
    (ClientMS.servers mb (prog :: (pre ++ "localhost" :: post)))[pre.length]? =
      (ClientMS.servers mb [prog])[0]? := by
  have hnil : ClientMS.servers mb [prog] = ["\\\\.\\mailslot\\Box"] := by
    simp [ClientMS.servers]
  refine ⟨?_, hnil, ?_, ?_⟩
  · cases targets with
    | nil => simp [hnil]
    | cons t ts =>
      rw [servers_cons_cons]
      simp
  · rw [servers_middle, getElem?_map_middle, hnil]
    simp
  · rw [servers_middle, getElem?_map_middle, hnil]
    simp

/-- C2: in the list the resolver produces for a non-empty specifier list, the
address at the position of a specifier `h` that is neither "." nor "localhost"
is exactly `\\` ++ widen h ++ `\mailslot\Box` (order and length preserved, no
validation: for the empty specifier it is `\\\mailslot\Box`), where widen is
`to_wstring_from_ansi`; the local address is the literal `\\.\mailslot\Box`,
the name each of the three receivers passes to `CreateMailslot`. -/
theorem resolver_address_format (mb : String → String) (prog h : String)
    (pre post : List String) (created : OpenOutcome) (read : ReadOutcome)
    (reads : List ReadOutcome) (buffer : List Char)
    (hdot : h ≠ ".") (hlocal : h ≠ "localhost") :
    (ClientMS.servers mb (prog :: (pre ++ h :: post)))[pre.length]? =
      some ("\\\\" ++ ClientMS.to_wstring_from_ansi mb h ++ "\\mailslot\\Box") ∧
    (ClientMS.servers mb (prog :: (pre ++ h :: post))).length = (pre ++ h :: post).length ∧
    (ClientMS.servers mb (prog :: (pre ++ "" :: post)))[pre.length]? =
      some "\\\\\\mailslot\\Box" ∧
    (h ≠ "" → ClientMS.to_wstring_from_ansi mb h = mb h) ∧
    (ClientMS.servers mb (prog :: (pre ++ "." :: post)))[pre.length]? =
      some "\\\\.\\mailslot\\Box" ∧
    (ServerMS.main created read buffer).trace.head? =
      some (Event.createMailslot "\\\\.\\mailslot\\Box" 300 180000) ∧
    (ServerMS_500bytes.main created read buffer).trace.head? =
      some (Event.createMailslot "\\\\.\\mailslot\\Box" 500 180000) ∧
    (∀ r, ServerMS_MultiMessage.main created reads buffer = some r →
      r.trace.head? = some (Event.createMailslot "\\\\.\\mailslot\\Box" 300 180000)) := by
  refine ⟨?_, ?_, ?_, ?_, ?_, ?_, ?_, ?_⟩
  · rw [servers_middle, getElem?_map_middle]
    simp [hdot, hlocal]
  · rw [servers_middle]
    simp
  · rw [servers_middle, getElem?_map_middle]
    simp [ClientMS.to_wstring_from_ansi]
  · intro hne
    simp [ClientMS.to_wstring_from_ansi, hne]
  · rw [servers_middle, getElem?_map_middle]
    simp
  · unfold ServerMS.main
    simp only [ServerMS.mailslotName]
    split_ifs <;> rfl
  · unfold ServerMS_500bytes.main
    simp only [ServerMS_500bytes.mailslotName]
    split_ifs <;> rfl
  · unfold ServerMS_MultiMessage.main
    simp only [ServerMS_MultiMessage.mailslotName]
    intro r hr
    split_ifs at hr
    · cases hr
      rfl
    · cases hloop : ServerMS_MultiMessage.readLoop created.handle reads buffer 0 with
      | none => simp [hloop] at hr
      | some e =>
        simp only [hloop, Option.some.injEq] at hr
        subst hr
        rfl

/-- C2 at the targets ".", "HOST", "B" with the identity as conversion. -/
theorem resolver_address_format_witness :
    (ClientMS.servers id ["ClientMS.exe", ".", "HOST", "B"])[1]? =
      some "\\\\HOST\\mailslot\\Box" ∧
    (ClientMS.servers id ["ClientMS.exe", ".", "HOST", "B"]).length = 3 :=
  have h := resolver_address_format id "ClientMS.exe" "HOST" ["."] ["B"]
    ⟨7, 0⟩ ⟨true, 0, [], 0⟩ [] [] (by decide) (by decide)
  ⟨h.1, h.2.1⟩

/-! ## The send loop of the broadcaster -/

theorem send_opens (server msg : String) (o : TargetOutcome) :
    opens (ClientMS.SendMessageToServer server msg o).2 = [server] := by
  by_cases h : o.opened.handle = INVALID_HANDLE_VALUE <;>
    cases hw : o.written.writeResult <;>
    simp [ClientMS.SendMessageToServer, opens, ClientMS.HandleMailslotError, h, hw]

theorem send_writeHandles (server msg : String) (o : TargetOutcome) :
    writeHandles (ClientMS.SendMessageToServer server msg o).2 =
      if o.opened.ok then [o.opened.handle] else [] := by
  by_cases h : o.opened.handle = INVALID_HANDLE_VALUE <;>
    cases hw : o.written.writeResult <;>
    simp [ClientMS.SendMessageToServer, writeHandles, ClientMS.HandleMailslotError,
      OpenOutcome.ok, h, hw]

theorem send_result (server msg : String) (o : TargetOutcome) :
    (ClientMS.SendMessageToServer server msg o).1 = o.succeeded := by
  by_cases h : o.opened.handle = INVALID_HANDLE_VALUE <;>
    cases hw : o.written.writeResult <;>
    simp [ClientMS.SendMessageToServer, TargetOutcome.succeeded, OpenOutcome.ok, h, hw]

/-- The send loop from any index and any counter value: it opens the remaining
targets in order, writes on exactly the handles whose open succeeded and adds
the number of successful targets to the counter. -/
theorem sendLoop_spec (world : Nat → TargetOutcome) (targets : List String) :
    ∀ (i : Nat) (successCount : Int),
      opens (ClientMS.sendLoop world i targets successCount).2 = targets ∧
      writeHandles (ClientMS.sendLoop world i targets successCount).2 =
        (List.range' i targets.length).filterMap
          (fun j => if (world j).opened.ok then some (world j).opened.handle else none) ∧
      (ClientMS.sendLoop world i targets successCount).1 =
        successCount + ((List.range' i targets.length).countP
          fun j => (world j).succeeded) := by
  induction targets with
  | nil =>
    intro i successCount
    simp [ClientMS.sendLoop, opens, writeHandles]
  | cons t ts ih =>
    intro i successCount
    obtain ⟨h1, h2, h3⟩ :=
      ih (i + 1) (if (ClientMS.SendMessageToServer t ClientMS.message (world i)).1
        then successCount + 1 else successCount)
    have ho := send_opens t ClientMS.message (world i)
    have hw := send_writeHandles t ClientMS.message (world i)
    have hr := send_result t ClientMS.message (world i)
    refine ⟨?_, ?_, ?_⟩
    · simp only [ClientMS.sendLoop]
      unfold opens at h1 ho ⊢
      rw [List.filterMap_append, List.filterMap_append, List.filterMap_append, h1, ho]
      cases hs : (ClientMS.SendMessageToServer t ClientMS.message (world i)).1 <;> simp
    · simp only [ClientMS.sendLoop]
      unfold writeHandles at h2 hw ⊢
      rw [List.filterMap_append, List.filterMap_append, List.filterMap_append, h2, hw]
      rw [List.length_cons, List.range'_succ]
      cases hs : (ClientMS.SendMessageToServer t ClientMS.message (world i)).1 <;>
        cases hok : (world i).opened.ok <;> simp [hok]
    · simp only [ClientMS.sendLoop]
      rw [h3, hr, List.length_cons, List.range'_succ, List.countP_cons]
      cases (world i).succeeded <;> simp
      ring

/-- C3: for every target list and every assignment of open and write outcomes
the send loop opens every target exactly once and in order, issues a write on
exactly the handles of the targets whose open succeeded, and ends with a counter
equal to the number of targets whose open and write both succeeded; the
broadcaster runs this loop on its resolved targets and reports that counter. -/
theorem broadcast_attempts_and_count (mb : String → String) (argv targets : List String)
    (world : Nat → TargetOutcome) :
    opens (ClientMS.sendLoop world 0 targets 0).2 = targets ∧
    (opens (ClientMS.sendLoop world 0 targets 0).2).length = targets.length ∧
    writeHandles (ClientMS.sendLoop world 0 targets 0).2 =
      (List.range targets.length).filterMap
        (fun i => if (world i).opened.ok then some (world i).opened.handle else none) ∧
    (ClientMS.sendLoop world 0 targets 0).1 =
      ((List.range targets.length).filter fun i => (world i).succeeded).length ∧
    opens (ClientMS.main mb argv world).trace = ClientMS.servers mb argv ∧
    Event.cout ("\nResult: sent successfully to " ++
        toString (((List.range (ClientMS.servers mb argv).length).filter
          fun i => (world i).succeeded).length : Int) ++
        " of " ++ toString (ClientMS.servers mb argv).length ++ " server(s)") ∈
      (ClientMS.main mb argv world).trace := by
  have key : ∀ l : List String, (ClientMS.sendLoop world 0 l 0).1 =
      ((List.range l.length).filter fun i => (world i).succeeded).length := by
    intro l
    rw [(sendLoop_spec world l 0 0).2.2, List.range_eq_range', List.countP_eq_length_filter]
    simp
  obtain ⟨h1, h2, -⟩ := sendLoop_spec world targets 0 0
  refine ⟨h1, by rw [h1], ?_, key targets, ?_, ?_⟩
  · rw [h2, List.range_eq_range']
  · unfold ClientMS.main
    simp only
    unfold opens
    rw [List.filterMap_append]
    have := (sendLoop_spec world (ClientMS.servers mb argv) 0 0).1
    unfold opens at this
    rw [this]
    simp
  · unfold ClientMS.main
    simp only
    rw [key]
    simp

/-! ## The batch of the performance harness -/

/-- One iteration of the batch whose write fails. -/
theorem batch_step_failure (hMailslot : HANDLE) (writes : Nat → WriteOutcome) (n i : Nat)
    (successCount errorCount : Int) (hw : (writes i).writeResult = false) :
    ClientMS_Performance.sendLoop hMailslot writes (n + 1) i successCount errorCount =
      { successCount := (ClientMS_Performance.sendLoop hMailslot writes n (i + 1) successCount
          (errorCount + 1)).successCount
        errorCount := (ClientMS_Performance.sendLoop hMailslot writes n (i + 1) successCount
          (errorCount + 1)).errorCount
        trace := [Event.writeFile hMailslot ClientMS_Performance.message
            ClientMS_Performance.messageLen] ++
          (if errorCount + 1 ≤ 5 then
             ClientMS_Performance.HandleMailslotError (writes i).lastError "WriteFile"
           else []) ++
          (if (i + 1) % 100 = 0 then
             [Event.cout ("Sent: " ++ toString (i + 1) ++ " / " ++
               toString ClientMS_Performance.MESSAGE_COUNT)]
           else []) ++
          (ClientMS_Performance.sendLoop hMailslot writes n (i + 1) successCount
            (errorCount + 1)).trace } := by
  simp [ClientMS_Performance.sendLoop, hw]

/-- One iteration of the batch whose write succeeds. -/
theorem batch_step_success (hMailslot : HANDLE) (writes : Nat → WriteOutcome) (n i : Nat)
    (successCount errorCount : Int) (hw : (writes i).writeResult = true) :
    ClientMS_Performance.sendLoop hMailslot writes (n + 1) i successCount errorCount =
      { successCount := (ClientMS_Performance.sendLoop hMailslot writes n (i + 1)
          (successCount + 1) errorCount).successCount
        errorCount := (ClientMS_Performance.sendLoop hMailslot writes n (i + 1)
          (successCount + 1) errorCount).errorCount
        trace := [Event.writeFile hMailslot ClientMS_Performance.message
            ClientMS_Performance.messageLen] ++
          (if (i + 1) % 100 = 0 then
             [Event.cout ("Sent: " ++ toString (i + 1) ++ " / " ++
               toString ClientMS_Performance.MESSAGE_COUNT)]
           else []) ++
          (ClientMS_Performance.sendLoop hMailslot writes n (i + 1) (successCount + 1)
            errorCount).trace } := by
  simp [ClientMS_Performance.sendLoop, hw]

/-- The batch loop from any index and any counter values: one write per
iteration on the same handle, the counters grow by the number of successful and
of failed writes, and a failure is reported while the error counter is at most 5. -/
theorem batch_spec (hMailslot : HANDLE) (writes : Nat → WriteOutcome) :
    ∀ (n i : Nat) (successCount errorCount : Int),
      writeHandles (ClientMS_Performance.sendLoop hMailslot writes n i successCount
        errorCount).trace = List.replicate n hMailslot ∧
      (ClientMS_Performance.sendLoop hMailslot writes n i successCount errorCount).successCount =
        successCount + ((List.range' i n).countP fun j => (writes j).writeResult) ∧
      (ClientMS_Performance.sendLoop hMailslot writes n i successCount errorCount).errorCount =
        errorCount + ((List.range' i n).countP fun j => !(writes j).writeResult) ∧
      ((cerrLines (ClientMS_Performance.sendLoop hMailslot writes n i successCount
        errorCount).trace).length : Int) =
        min (ClientMS_Performance.sendLoop hMailslot writes n i successCount
          errorCount).errorCount 5 - min errorCount 5 := by
  intro n
  induction n with
  | zero =>
    intro i successCount errorCount
    simp [ClientMS_Performance.sendLoop, writeHandles, cerrLines]
  | succ n ih =>
    intro i successCount errorCount
    cases hw : (writes i).writeResult
    · obtain ⟨h1, h2, h3, h4⟩ := ih (i + 1) successCount (errorCount + 1)
      have hstep := batch_step_failure hMailslot writes n i successCount errorCount hw
      rw [hstep]
      refine ⟨?_, ?_, ?_, ?_⟩
      · unfold writeHandles at h1 ⊢
        simp only [List.filterMap_append, h1]
        by_cases h5 : errorCount + 1 ≤ 5 <;> by_cases hp : (i + 1) % 100 = 0 <;>
          simp [h5, hp, ClientMS_Performance.HandleMailslotError, List.replicate_succ]
      · simp only [h2, List.range'_succ]
        simp [hw]
      · simp only [h3, List.range'_succ]
        simp [hw]
        ring
      · unfold cerrLines at h4 ⊢
        simp only [List.filterMap_append, List.length_append, Nat.cast_add, h4, h3]
        by_cases h5 : errorCount + 1 ≤ 5 <;> by_cases hp : (i + 1) % 100 = 0 <;>
          simp [h5, hp, ClientMS_Performance.HandleMailslotError] <;> omega
    · obtain ⟨h1, h2, h3, h4⟩ := ih (i + 1) (successCount + 1) errorCount
      have hstep := batch_step_success hMailslot writes n i successCount errorCount hw
      rw [hstep]
      refine ⟨?_, ?_, ?_, ?_⟩
      · unfold writeHandles at h1 ⊢
        simp only [List.filterMap_append, h1]
        by_cases hp : (i + 1) % 100 = 0 <;> simp [hp, List.replicate_succ]
      · simp only [h2, List.range'_succ]
        simp [hw]
        ring
      · simp only [h3, List.range'_succ]
        simp [hw]
      · unfold cerrLines at h4 ⊢
        simp only [List.filterMap_append, List.length_append, Nat.cast_add, h4]
        by_cases hp : (i + 1) % 100 = 0 <;> simp [hp]

/-- Every iteration of the batch increments exactly one of the two counters. -/
theorem batch_total (hMailslot : HANDLE) (writes : Nat → WriteOutcome) :
    ∀ (n i : Nat) (successCount errorCount : Int),
      (ClientMS_Performance.sendLoop hMailslot writes n i successCount errorCount).successCount +
        (ClientMS_Performance.sendLoop hMailslot writes n i successCount errorCount).errorCount =
        successCount + errorCount + n := by
  intro n
  induction n with
  | zero =>
    intro i successCount errorCount
    simp [ClientMS_Performance.sendLoop]
  | succ n ih =>
    intro i successCount errorCount
    cases hw : (writes i).writeResult
    · rw [batch_step_failure hMailslot writes n i successCount errorCount hw]
      simp only [ih (i + 1) successCount (errorCount + 1)]
      push_cast
      ring
    · rw [batch_step_success hMailslot writes n i successCount errorCount hw]
      simp only [ih (i + 1) (successCount + 1) errorCount]
      push_cast
      ring

/-- The counters of the whole batch. -/
theorem batch_counters (hMailslot : HANDLE) (writes : Nat → WriteOutcome) :
    (ClientMS_Performance.sendLoop hMailslot writes ClientMS_Performance.MESSAGE_COUNT 0 0
      0).successCount = successfulWrites writes 1000 ∧
    (ClientMS_Performance.sendLoop hMailslot writes ClientMS_Performance.MESSAGE_COUNT 0 0
      0).errorCount = failedWrites writes 1000 := by
  obtain ⟨-, h2, h3, -⟩ :=
    batch_spec hMailslot writes ClientMS_Performance.MESSAGE_COUNT 0 0 0
  rw [h2, h3]
  simp [successfulWrites, failedWrites, List.range_eq_range', List.countP_eq_length_filter,
    ClientMS_Performance.MESSAGE_COUNT]

/-- The trace of the harness once the open succeeded. -/
theorem perf_main_open (mb : String → String) (argv : List String) (opened : OpenOutcome)
    (writes : Nat → WriteOutcome) (clock : Clock)
    (hopen : opened.handle ≠ INVALID_HANDLE_VALUE) :
    ClientMS_Performance.main mb argv opened writes clock =
      { trace :=
          [Event.cout ("Performance test: sending " ++
              toString ClientMS_Performance.MESSAGE_COUNT ++ " messages"),
            Event.wcout ("Server: " ++ ClientMS_Performance.mailslotNameW mb argv),
            Event.cout ("Message size: " ++ toString ClientMS_Performance.messageLen ++
              " bytes"),
            Event.createFile (ClientMS_Performance.mailslotNameW mb argv)] ++
          [Event.cout "Mailslot opened. Starting to send..."] ++
          (ClientMS_Performance.sendLoop opened.handle writes
            ClientMS_Performance.MESSAGE_COUNT 0 0 0).trace ++
          [Event.closeHandle opened.handle] ++
          ClientMS_Performance.report
            (ClientMS_Performance.sendLoop opened.handle writes
              ClientMS_Performance.MESSAGE_COUNT 0 0 0).successCount
            (ClientMS_Performance.sendLoop opened.handle writes
              ClientMS_Performance.MESSAGE_COUNT 0 0 0).errorCount clock ++
          [Event.cout "\nClient is exiting."]
        exitCode :=
          if (ClientMS_Performance.sendLoop opened.handle writes
            ClientMS_Performance.MESSAGE_COUNT 0 0 0).errorCount = 0 then 0 else 1 } := by
  simp [ClientMS_Performance.main, hopen]

/-- C8: once the handle is open, for every sequence of write outcomes the
harness issues exactly 1000 writes, all on that handle; its error counter is the
number of failed writes and its success counter the number of successful ones,
both are reported, they add up to 1000, and exactly min(errorCount, 5) failures
are reported individually. -/
theorem batch_counts (mb : String → String) (argv : List String) (opened : OpenOutcome)
    (writes : Nat → WriteOutcome) (clock : Clock)
    (hopen : opened.handle ≠ INVALID_HANDLE_VALUE) :
    writeHandles (ClientMS_Performance.main mb argv opened writes clock).trace =
      List.replicate 1000 opened.handle ∧
    (ClientMS_Performance.sendLoop opened.handle writes ClientMS_Performance.MESSAGE_COUNT
      0 0 0).errorCount = failedWrites writes 1000 ∧
    (ClientMS_Performance.sendLoop opened.handle writes ClientMS_Performance.MESSAGE_COUNT
      0 0 0).successCount = successfulWrites writes 1000 ∧
    successfulWrites writes 1000 + failedWrites writes 1000 = 1000 ∧
    (cerrLines (ClientMS_Performance.main mb argv opened writes clock).trace).length =
      min (failedWrites writes 1000) 5 ∧
    Event.cout ("Succeeded: " ++ toString (successfulWrites writes 1000 : Int)) ∈
      (ClientMS_Performance.main mb argv opened writes clock).trace ∧
    Event.cout ("Errors: " ++ toString (failedWrites writes 1000 : Int)) ∈
      (ClientMS_Performance.main mb argv opened writes clock).trace := by
  obtain ⟨h1, -, -, h4⟩ :=
    batch_spec opened.handle writes ClientMS_Performance.MESSAGE_COUNT 0 0 0
  obtain ⟨hs, he⟩ := batch_counters opened.handle writes
  have ht := batch_total opened.handle writes ClientMS_Performance.MESSAGE_COUNT 0 0 0
  rw [hs, he] at ht
  rw [he] at h4
  rw [perf_main_open mb argv opened writes clock hopen]
  refine ⟨?_, he, hs, ?_, ?_, ?_, ?_⟩
  · change _ = List.replicate ClientMS_Performance.MESSAGE_COUNT opened.handle
    unfold writeHandles at h1 ⊢
    simp only [List.filterMap_append, h1]
    generalize List.replicate ClientMS_Performance.MESSAGE_COUNT opened.handle = writes1000
    simp [ClientMS_Performance.report]
  · simp [ClientMS_Performance.MESSAGE_COUNT] at ht
    exact_mod_cast ht
  · have h5 : ((cerrLines (ClientMS_Performance.sendLoop opened.handle writes
        ClientMS_Performance.MESSAGE_COUNT 0 0 0).trace).length : Int) =
        ((min (failedWrites writes 1000) 5 : Nat) : Int) := by
      rw [h4]
      push_cast
      simp
    have h6 := Int.ofNat_inj.mp h5
    unfold cerrLines at h6 ⊢
    simp only [List.filterMap_append, List.length_append, h6]
    simp [ClientMS_Performance.report]
  · rw [hs]
    simp [ClientMS_Performance.report]
  · rw [he]
    simp [ClientMS_Performance.report]

/-- C8 at a run in which every write succeeds. -/
theorem batch_counts_witness :
    writeHandles (ClientMS_Performance.main id ["ClientMS_Performance.exe"] ⟨7, 0⟩
      (fun _ => ⟨true, 25, 0⟩) ⟨10000000, 0, 20000000⟩).trace = List.replicate 1000 7 :=
  (batch_counts id ["ClientMS_Performance.exe"] ⟨7, 0⟩ (fun _ => ⟨true, 25, 0⟩)
    ⟨10000000, 0, 20000000⟩ (by decide)).1

/-! ## Exit codes of the two senders -/

/-- The success counter reaches the number of targets exactly when every target
succeeded. -/
theorem all_succeeded_iff (world : Nat → TargetOutcome) (n : Nat) :
    (((List.range n).filter fun i => (world i).succeeded).length : Int) = (n : Int) ↔
      ∀ i < n, (world i).succeeded = true := by
  rw [Int.ofNat_inj]
  have h := @List.filter_length_eq_length Nat (fun i => (world i).succeeded) (List.range n)
  rw [List.length_range] at h
  rw [h]
  simp [List.mem_range]

/-- The error counter stays at zero exactly when every write succeeded. -/
theorem no_failure_iff (writes : Nat → WriteOutcome) (n : Nat) :
    ((failedWrites writes n : Nat) : Int) = 0 ↔ ∀ i < n, (writes i).writeResult = true := by
  unfold failedWrites
  rw [← List.countP_eq_length_filter]
  constructor
  · intro h i hi
    have h0 : List.countP (fun i => !(writes i).writeResult) (List.range n) = 0 := by
      exact_mod_cast h
    have := (List.countP_eq_zero.mp h0) i (List.mem_range.mpr hi)
    simpa using this
  · intro h
    have h0 : List.countP (fun i => !(writes i).writeResult) (List.range n) = 0 := by
      apply List.countP_eq_zero.mpr
      intro i hi
      simp [h i (List.mem_range.mp hi)]
    exact_mod_cast h0

/-- C4: the broadcaster exits with 0 exactly when every resolved target
succeeded and with 1 otherwise; with the single target "." and an open that
fails with "file not found" it reports 0 of 1 and exits with 1; the performance
harness exits with 0 exactly when the open succeeded and none of the 1000
writes failed, and with 1 otherwise. -/
theorem sender_exit_codes (mb : String → String) (argv : List String)
    (world : Nat → TargetOutcome) (prog : String) (written : WriteOutcome)
    (opened : OpenOutcome) (writes : Nat → WriteOutcome) (clock : Clock) :
    ((ClientMS.main mb argv world).exitCode = 0 ↔
      ∀ i < (ClientMS.servers mb argv).length, (world i).succeeded = true) ∧
    ((ClientMS.main mb argv world).exitCode = 0 ∨ (ClientMS.main mb argv world).exitCode = 1) ∧
    (ClientMS.main mb [prog, "."]
      (fun _ => ⟨⟨INVALID_HANDLE_VALUE, ERROR_FILE_NOT_FOUND⟩, written⟩)).exitCode = 1 ∧
    Event.cout "\nResult: sent successfully to 0 of 1 server(s)" ∈
      (ClientMS.main mb [prog, "."]
        (fun _ => ⟨⟨INVALID_HANDLE_VALUE, ERROR_FILE_NOT_FOUND⟩, written⟩)).trace ∧
    ((ClientMS_Performance.main mb argv opened writes clock).exitCode = 0 ↔
      opened.handle ≠ INVALID_HANDLE_VALUE ∧ ∀ i < 1000, (writes i).writeResult = true) ∧
    ((ClientMS_Performance.main mb argv opened writes clock).exitCode = 0 ∨
      (ClientMS_Performance.main mb argv opened writes clock).exitCode = 1) := by
  have hcount : ∀ (w : Nat → TargetOutcome) (l : List String),
      (ClientMS.sendLoop w 0 l 0).1 =
        ((List.range l.length).filter fun i => (w i).succeeded).length := by
    intro w l
    rw [(sendLoop_spec w l 0 0).2.2, List.range_eq_range', List.countP_eq_length_filter]
    simp
  have hexit : ∀ (w : Nat → TargetOutcome) (a : List String),
      (ClientMS.main mb a w).exitCode =
        if ∀ i < (ClientMS.servers mb a).length, (w i).succeeded = true then 0 else 1 := by
    intro w a
    unfold ClientMS.main
    simp only [hcount, all_succeeded_iff]
  have hlocal : ClientMS.servers mb [prog, "."] = ["\\\\.\\mailslot\\Box"] := by
    simp [ClientMS.servers]
  refine ⟨?_, ?_, ?_, ?_, ?_, ?_⟩
  · rw [hexit]
    split_ifs with h
    · exact ⟨fun _ => h, fun _ => rfl⟩
    · exact ⟨fun h0 => absurd h0 (by decide), fun h1 => absurd h1 h⟩
  · rw [hexit]
    split_ifs <;> simp
  · rw [hexit, hlocal]
    simp [TargetOutcome.succeeded, OpenOutcome.ok]
  · unfold ClientMS.main
    simp only [hcount, hlocal]
    simp [TargetOutcome.succeeded, OpenOutcome.ok]
    exact Or.inr (by decide)
  · by_cases hopen : opened.handle = INVALID_HANDLE_VALUE
    · simp [ClientMS_Performance.main, hopen]
    · rw [perf_main_open mb argv opened writes clock hopen,
        (batch_counters opened.handle writes).2]
      simp only [no_failure_iff]
      split_ifs with h
      · exact ⟨fun _ => ⟨hopen, h⟩, fun _ => rfl⟩
      · exact ⟨fun h0 => absurd h0 (by decide), fun h1 => absurd h1.2 h⟩
  · by_cases hopen : opened.handle = INVALID_HANDLE_VALUE
    · simp [ClientMS_Performance.main, hopen]
    · rw [perf_main_open mb argv opened writes clock hopen]
      simp only
      split_ifs <;> simp

/-! ## The single-message receivers -/

/-- A line of `HandleMailslotError` is never the timeout line. -/
theorem error_line_ne_timeout (operation description : String) :
    "Error in operation '" ++ operation ++ "': " ++ description ≠
      "Message wait timeout (3 minutes)" := by
  intro h
  have h2 := congrArg String.data h
  simp only [String.data_append] at h2
  have h3 := congrArg List.head? h2
  simp at h3

/-- C5: once the endpoint is created, both single-message receivers exit with 0
on a successful read of any length; a zero-length read prints "Empty message
received", closes the handle and is not reported as a timeout; a read that
fails with the timeout code and a read that fails with any other code both exit
with 1; the timeout is reported by the line "Message wait timeout (3 minutes)"
on the standard output and nothing on the error stream, every other error by one
line of `HandleMailslotError` on the error stream, which differs from the
timeout line, and without the timeout line. -/
theorem single_receiver_terminal_states (created : OpenOutcome) (buffer data : List Char)
    (bytesRead error stale : DWORD)
    (hcreated : created.handle ≠ INVALID_HANDLE_VALUE) (herror : error ≠ ERROR_TIMEOUT) :
    ((ServerMS.main created ⟨true, bytesRead, data, stale⟩ buffer).exitCode = 0 ∧
     ServerMS.main created ⟨true, 0, data, stale⟩ buffer =
       { trace := [Event.createMailslot "\\\\.\\mailslot\\Box" 300 180000,
           Event.cout "Mailslot created", Event.cout "Waiting for client message...",
           Event.readFile created.handle 511, Event.cout "Empty message received",
           Event.closeHandle created.handle, Event.cout "Server shutting down."]
         exitCode := 0 } ∧
     ServerMS.main created ⟨false, bytesRead, data, ERROR_TIMEOUT⟩ buffer =
       { trace := [Event.createMailslot "\\\\.\\mailslot\\Box" 300 180000,
           Event.cout "Mailslot created", Event.cout "Waiting for client message...",
           Event.readFile created.handle 511, Event.cout "Message wait timeout (3 minutes)",
           Event.closeHandle created.handle]
         exitCode := 1 } ∧
     (ServerMS.main created ⟨false, bytesRead, data, error⟩ buffer).exitCode = 1 ∧
     (ServerMS.main created ⟨false, bytesRead, data, error⟩ buffer).trace =
       [Event.createMailslot "\\\\.\\mailslot\\Box" 300 180000,
         Event.cout "Mailslot created", Event.cout "Waiting for client message...",
         Event.readFile created.handle 511] ++
       ServerMS.HandleMailslotError error "ReadFile" ++ [Event.closeHandle created.handle] ∧
     "Message wait timeout (3 minutes)" ∉
       coutLines (ServerMS.main created ⟨false, bytesRead, data, error⟩ buffer).trace ∧
     (∃ line, cerrLines (ServerMS.main created ⟨false, bytesRead, data, error⟩ buffer).trace =
         [line] ∧ line ≠ "Message wait timeout (3 minutes)")) ∧
    ((ServerMS_500bytes.main created ⟨true, bytesRead, data, stale⟩ buffer).exitCode = 0 ∧
     ServerMS_500bytes.main created ⟨true, 0, data, stale⟩ buffer =
       { trace := [Event.createMailslot "\\\\.\\mailslot\\Box" 500 180000,
           Event.cout "Mailslot created", Event.cout "Max message size: 500 bytes",
           Event.cout "Waiting for client message...",
           Event.readFile created.handle 511, Event.cout "Empty message received",
           Event.closeHandle created.handle, Event.cout "Server shutting down."]
         exitCode := 0 } ∧
     ServerMS_500bytes.main created ⟨false, bytesRead, data, ERROR_TIMEOUT⟩ buffer =
       { trace := [Event.createMailslot "\\\\.\\mailslot\\Box" 500 180000,
           Event.cout "Mailslot created", Event.cout "Max message size: 500 bytes",
           Event.cout "Waiting for client message...",
           Event.readFile created.handle 511, Event.cout "Message wait timeout (3 minutes)",
           Event.closeHandle created.handle]
         exitCode := 1 } ∧
     (ServerMS_500bytes.main created ⟨false, bytesRead, data, error⟩ buffer).exitCode = 1 ∧
     (ServerMS_500bytes.main created ⟨false, bytesRead, data, error⟩ buffer).trace =
       [Event.createMailslot "\\\\.\\mailslot\\Box" 500 180000,
         Event.cout "Mailslot created", Event.cout "Max message size: 500 bytes",
         Event.cout "Waiting for client message...",
         Event.readFile created.handle 511] ++
       ServerMS_500bytes.HandleMailslotError error "ReadFile" ++
       [Event.closeHandle created.handle] ∧
     "Message wait timeout (3 minutes)" ∉
       coutLines (ServerMS_500bytes.main created ⟨false, bytesRead, data, error⟩ buffer).trace ∧
     (∃ line,
       cerrLines (ServerMS_500bytes.main created ⟨false, bytesRead, data, error⟩ buffer).trace =
         [line] ∧ line ≠ "Message wait timeout (3 minutes)")) := by
  refine ⟨⟨?_, ?_, ?_, ?_, ?_, ?_, ?_⟩, ⟨?_, ?_, ?_, ?_, ?_, ?_, ?_⟩⟩
  · simp [ServerMS.main, hcreated]
  · simp [ServerMS.main, hcreated, ServerMS.mailslotName, bufferSize]
  · simp [ServerMS.main, hcreated, ServerMS.mailslotName, bufferSize]
  · simp [ServerMS.main, hcreated]
  · simp [ServerMS.main, hcreated, herror, ServerMS.mailslotName, bufferSize]
  · simp [ServerMS.main, hcreated, herror, ServerMS.HandleMailslotError, coutLines]
  · obtain ⟨d, hd⟩ : ∃ d, ServerMS.HandleMailslotError error "ReadFile" =
        [Event.cerr ("Error in operation '" ++ "ReadFile" ++ "': " ++ d)] := ⟨_, rfl⟩
    refine ⟨"Error in operation '" ++ "ReadFile" ++ "': " ++ d, ?_,
      error_line_ne_timeout _ _⟩
    simp [ServerMS.main, hcreated, herror, hd, cerrLines]
  · simp [ServerMS_500bytes.main, hcreated]
  · simp [ServerMS_500bytes.main, hcreated, ServerMS_500bytes.mailslotName, bufferSize]
  · simp [ServerMS_500bytes.main, hcreated, ServerMS_500bytes.mailslotName, bufferSize]
  · simp [ServerMS_500bytes.main, hcreated]
  · simp [ServerMS_500bytes.main, hcreated, herror, ServerMS_500bytes.mailslotName, bufferSize]
  · simp [ServerMS_500bytes.main, hcreated, herror, ServerMS_500bytes.HandleMailslotError,
      coutLines]
  · obtain ⟨d, hd⟩ : ∃ d, ServerMS_500bytes.HandleMailslotError error "ReadFile" =
        [Event.cerr ("Error in operation '" ++ "ReadFile" ++ "': " ++ d)] := ⟨_, rfl⟩
    refine ⟨"Error in operation '" ++ "ReadFile" ++ "': " ++ d, ?_,
      error_line_ne_timeout _ _⟩
    simp [ServerMS_500bytes.main, hcreated, herror, hd, cerrLines]

/-- C5 at a zero-length message and at the error code 5 (access denied). -/
theorem single_receiver_terminal_states_witness :
    (ServerMS.main ⟨7, 0⟩ ⟨true, 0, [], 0⟩ []).exitCode = 0 ∧
    (ServerMS.main ⟨7, 0⟩ ⟨false, 0, [], 5⟩ []).exitCode = 1 ∧
    (ServerMS_500bytes.main ⟨7, 0⟩ ⟨true, 0, [], 0⟩ []).exitCode = 0 ∧
    (ServerMS_500bytes.main ⟨7, 0⟩ ⟨false, 0, [], 5⟩ []).exitCode = 1 :=
  have h := single_receiver_terminal_states ⟨7, 0⟩ [] [] 0 5 0 (by decide) (by decide)
  ⟨h.1.1, h.1.2.2.2.1, h.2.1, h.2.2.2.2.1⟩

/-! ## The multi-message receiver -/

/-- While every read succeeds the loop is not left. -/
theorem readLoop_pending (hMailslot : HANDLE) :
    ∀ succs : List ReadOutcome, (∀ r ∈ succs, r.readResult = true) →
      ∀ (buffer : List Char) (messageCount : Int),
        ServerMS_MultiMessage.readLoop hMailslot succs buffer messageCount = none := by
  intro succs
  induction succs with
  | nil =>
    intro _ buffer messageCount
    rfl
  | cons r rs ih =>
    intro hs buffer messageCount
    have hr : r.readResult = true := hs r (List.mem_cons_self _ _)
    have hrs : ∀ x ∈ rs, x.readResult = true := fun x hx => hs x (List.mem_cons_of_mem _ hx)
    simp [ServerMS_MultiMessage.readLoop, hr, ih hrs]

/-- A failed read ends the loop with the counter unchanged. -/
theorem readLoop_failure (hMailslot : HANDLE) (f : ReadOutcome) (rest : List ReadOutcome)
    (buffer : List Char) (messageCount : Int) (hf : f.readResult = false) :
    ServerMS_MultiMessage.readLoop hMailslot (f :: rest) buffer messageCount =
      some { messageCount := messageCount
             trace := Event.readFile hMailslot 511 ::
               (if f.lastError = ERROR_TIMEOUT then
                  [Event.cout "\nMessage wait timeout (3 minutes)",
                   Event.cout ("Total messages received: " ++ toString messageCount)]
                else ServerMS_MultiMessage.HandleMailslotError f.lastError "ReadFile") } := by
  by_cases ht : f.lastError = ERROR_TIMEOUT <;>
    simp [ServerMS_MultiMessage.readLoop, hf, ht, bufferSize]

/-- A successful read is processed with the incremented counter and the loop
goes on. -/
theorem readLoop_success (hMailslot : HANDLE) (r : ReadOutcome) (rest : List ReadOutcome)
    (buffer : List Char) (messageCount : Int) (e : ServerMS_MultiMessage.LoopEnd)
    (hr : r.readResult = true)
    (hrest : ServerMS_MultiMessage.readLoop hMailslot rest
      (if r.bytesRead > 0 then (store r.data buffer).set r.bytesRead (Char.ofNat 0)
       else store r.data buffer) (messageCount + 1) = some e) :
    ServerMS_MultiMessage.readLoop hMailslot (r :: rest) buffer messageCount =
      some { messageCount := e.messageCount
             trace := Event.readFile hMailslot 511 ::
               (ServerMS_MultiMessage.process (messageCount + 1) r.bytesRead
                 (store r.data buffer) ++ e.trace) } := by
  simp [ServerMS_MultiMessage.readLoop, hr, hrest, bufferSize]

/-- The loop on k successful reads followed by a failed one: the j-th block of
the trace is a read processed with the counter value start + j, then comes the
failed read and its report. -/
theorem readLoop_spec (hMailslot : HANDLE) (f : ReadOutcome) (rest : List ReadOutcome)
    (hf : f.readResult = false) :
    ∀ succs : List ReadOutcome, (∀ r ∈ succs, r.readResult = true) →
      ∀ (i : Nat) (buffer : List Char),
        ∃ bufs : List (List Char), bufs.length = succs.length ∧
          ServerMS_MultiMessage.readLoop hMailslot (succs ++ f :: rest) buffer (i : Int) =
            some { messageCount := ((i + succs.length : Nat) : Int)
                   trace :=
                     (((succs.enumFrom i).zip bufs).flatMap fun p =>
                       Event.readFile hMailslot 511 ::
                         ServerMS_MultiMessage.process ((p.1.1 : Int) + 1) p.1.2.bytesRead p.2) ++
                     Event.readFile hMailslot 511 ::
                       (if f.lastError = ERROR_TIMEOUT then
                          [Event.cout "\nMessage wait timeout (3 minutes)",
                           Event.cout ("Total messages received: " ++
                             toString ((i + succs.length : Nat) : Int))]
                        else
                          ServerMS_MultiMessage.HandleMailslotError f.lastError "ReadFile") } := by
  intro succs
  induction succs with
  | nil =>
    intro _ i buffer
    refine ⟨[], rfl, ?_⟩
    rw [List.nil_append, readLoop_failure hMailslot f rest buffer i hf]
    simp
  | cons r rs ih =>
    intro hs i buffer
    have hr : r.readResult = true := hs r (List.mem_cons_self _ _)
    have hrs : ∀ x ∈ rs, x.readResult = true := fun x hx => hs x (List.mem_cons_of_mem _ hx)
    obtain ⟨bufs, hlen, hloop⟩ := ih hrs (i + 1)
      (if r.bytesRead > 0 then (store r.data buffer).set r.bytesRead (Char.ofNat 0)
       else store r.data buffer)
    refine ⟨store r.data buffer :: bufs, by simp [hlen], ?_⟩
    have hcast : ((i + 1 : Nat) : Int) = (i : Int) + 1 := by push_cast; rfl
    rw [hcast] at hloop
    rw [List.cons_append, readLoop_success hMailslot r (rs ++ f :: rest) buffer i _ hr hloop]
    have hsum : i + 1 + rs.length = i + (r :: rs).length := by
      simp [List.length_cons]
      omega
    simp only [hsum, List.enumFrom_cons, List.zip_cons_cons, List.flatMap_cons,
      List.cons_append, List.append_assoc]

/-- Processing a message issues no read. -/
theorem readHandles_process (messageCount : Int) (bytesRead : DWORD) (buffer : List Char) :
    readHandles (ServerMS_MultiMessage.process messageCount bytesRead buffer) = [] := by
  unfold ServerMS_MultiMessage.process readHandles
  split_ifs <;> simp

/-- Each block of the loop issues exactly one read. -/
theorem readHandles_blocks (hMailslot : HANDLE)
    (l : List ((Nat × ReadOutcome) × List Char)) :
    readHandles (l.flatMap fun p =>
      Event.readFile hMailslot 511 ::
        ServerMS_MultiMessage.process ((p.1.1 : Int) + 1) p.1.2.bytesRead p.2) =
      List.replicate l.length hMailslot := by
  induction l with
  | nil => rfl
  | cons p ps ih =>
    have hp := readHandles_process ((p.1.1 : Int) + 1) p.1.2.bytesRead p.2
    unfold readHandles at ih hp ⊢
    rw [List.flatMap_cons, List.filterMap_append, ih, List.filterMap_cons]
    simp only [hp, List.length_cons, List.replicate_succ]
    simp

/-- C6: once the endpoint is created, on k successful reads of any length
followed by a failed read the loop of the multi-message receiver issues exactly
k+1 reads and is left at that failure (whatever outcomes would follow), not
before: on the k successful reads alone it is still waiting; the j-th
successful read is processed with the ordinal j, for j from 1 to k in arrival
order; and the final message count printed is k. -/
theorem multi_receiver_loop (created : OpenOutcome) (succs : List ReadOutcome)
    (f : ReadOutcome) (rest : List ReadOutcome) (buffer : List Char)
    (hcreated : created.handle ≠ INVALID_HANDLE_VALUE)
    (hs : ∀ r ∈ succs, r.readResult = true) (hf : f.readResult = false) :
    ServerMS_MultiMessage.main created succs buffer = none ∧
    ∃ (run : Run) (bufs : List (List Char)),
      ServerMS_MultiMessage.main created (succs ++ f :: rest) buffer = some run ∧
      bufs.length = succs.length ∧
      readHandles run.trace = List.replicate (succs.length + 1) created.handle ∧
      run.trace =
        [Event.createMailslot "\\\\.\\mailslot\\Box" 300 180000,
          Event.cout "Mailslot created", Event.cout "Waiting for client messages...",
          Event.cout "Press Ctrl+C or close the window to exit"] ++
        ((succs.enum.zip bufs).flatMap fun p =>
          Event.readFile created.handle 511 ::
            ServerMS_MultiMessage.process ((p.1.1 : Int) + 1) p.1.2.bytesRead p.2) ++
        Event.readFile created.handle 511 ::
          (if f.lastError = ERROR_TIMEOUT then
             [Event.cout "\nMessage wait timeout (3 minutes)",
              Event.cout ("Total messages received: " ++ toString (succs.length : Int))]
           else ServerMS_MultiMessage.HandleMailslotError f.lastError "ReadFile") ++
        [Event.closeHandle created.handle,
          Event.cout ("\nServer shutting down. Total messages: " ++
            toString (succs.length : Int))] := by
  constructor
  · simp [ServerMS_MultiMessage.main, hcreated,
      readLoop_pending created.handle succs hs buffer 0]
  · obtain ⟨bufs, hlen, hloop⟩ := readLoop_spec created.handle f rest hf succs hs 0 buffer
    simp only [Nat.cast_zero, Nat.zero_add] at hloop
    have hrun : ServerMS_MultiMessage.main created (succs ++ f :: rest) buffer =
        some { trace := [Event.createMailslot "\\\\.\\mailslot\\Box" 300 180000,
                 Event.cout "Mailslot created", Event.cout "Waiting for client messages...",
                 Event.cout "Press Ctrl+C or close the window to exit"] ++
               ((succs.enum.zip bufs).flatMap fun p =>
                 Event.readFile created.handle 511 ::
                   ServerMS_MultiMessage.process ((p.1.1 : Int) + 1) p.1.2.bytesRead p.2) ++
               Event.readFile created.handle 511 ::
                 (if f.lastError = ERROR_TIMEOUT then
                    [Event.cout "\nMessage wait timeout (3 minutes)",
                     Event.cout ("Total messages received: " ++
                       toString (succs.length : Int))]
                  else ServerMS_MultiMessage.HandleMailslotError f.lastError "ReadFile") ++
               [Event.closeHandle created.handle,
                 Event.cout ("\nServer shutting down. Total messages: " ++
                   toString (succs.length : Int))]
               exitCode := 0 } := by
      simp [ServerMS_MultiMessage.main, hcreated, hloop, ServerMS_MultiMessage.mailslotName,
        List.enum]
    refine ⟨_, bufs, hrun, hlen, ?_, rfl⟩
    have hb := readHandles_blocks created.handle (succs.enum.zip bufs)
    have hz : (succs.enum.zip bufs).length = succs.length := by
      simp [List.enum, hlen]
    rw [hz] at hb
    unfold readHandles at hb ⊢
    simp only [List.filterMap_append, hb, List.replicate_succ']
    by_cases ht : f.lastError = ERROR_TIMEOUT <;>
      simp [ht, ServerMS_MultiMessage.HandleMailslotError]

/-- C6 at three messages, the second of length zero, followed by a timeout. -/
theorem multi_receiver_loop_witness :
    (ServerMS_MultiMessage.main ⟨7, 0⟩
      [⟨true, 2, [Char.ofNat 104, Char.ofNat 105], 0⟩, ⟨true, 0, [], 0⟩,
       ⟨true, 1, [Char.ofNat 33], 0⟩, ⟨false, 0, [], ERROR_TIMEOUT⟩] []).map
      (fun run => readHandles run.trace) = some [7, 7, 7, 7] ∧
    (ServerMS_MultiMessage.main ⟨7, 0⟩
      [⟨true, 2, [Char.ofNat 104, Char.ofNat 105], 0⟩, ⟨true, 0, [], 0⟩,
       ⟨true, 1, [Char.ofNat 33], 0⟩, ⟨false, 0, [], ERROR_TIMEOUT⟩] []).map
      (fun run => coutLines run.trace) =
    some ["Mailslot created", "Waiting for client messages...",
      "Press Ctrl+C or close the window to exit", "[1] Received (2 bytes): hi",
      "[2] Empty message", "[3] Received (1 bytes): !", "\nMessage wait timeout (3 minutes)",
      "Total messages received: 3", "\nServer shutting down. Total messages: 3"] :=
  have h := multi_receiver_loop ⟨7, 0⟩
    [⟨true, 2, [Char.ofNat 104, Char.ofNat 105], 0⟩, ⟨true, 0, [], 0⟩,
     ⟨true, 1, [Char.ofNat 33], 0⟩] ⟨false, 0, [], ERROR_TIMEOUT⟩ [] [] (by decide) (by simp) rfl
  match h.2 with
  | ⟨_, _, hrun, _, hreads, _⟩ =>
    ⟨by
      rw [show ([⟨true, 2, [Char.ofNat 104, Char.ofNat 105], 0⟩, ⟨true, 0, [], 0⟩,
          ⟨true, 1, [Char.ofNat 33], 0⟩, ⟨false, 0, [], ERROR_TIMEOUT⟩] : List ReadOutcome) =
          [⟨true, 2, [Char.ofNat 104, Char.ofNat 105], 0⟩, ⟨true, 0, [], 0⟩,
            ⟨true, 1, [Char.ofNat 33], 0⟩] ++ ⟨false, 0, [], ERROR_TIMEOUT⟩ :: [] from rfl, hrun]
      simp [hreads], by decide⟩

/-- C7 (as amended): when the read loop of the multi-message receiver ends
because a read failed with the timeout code, after any number of successful
reads, the process closes the handle and exits with code 0; it exits with code
1 when `CreateMailslot` fails. -/
theorem multi_receiver_timeout_exit (created : OpenOutcome) (succs : List ReadOutcome)
    (f : ReadOutcome) (rest reads : List ReadOutcome) (buffer : List Char) (error : DWORD)
    (hcreated : created.handle ≠ INVALID_HANDLE_VALUE)
    (hs : ∀ r ∈ succs, r.readResult = true) (hf : f.readResult = false)
    (htimeout : f.lastError = ERROR_TIMEOUT) :
    (∃ run : Run,
      ServerMS_MultiMessage.main created (succs ++ f :: rest) buffer = some run ∧
      run.exitCode = 0 ∧
      Event.cout "\nMessage wait timeout (3 minutes)" ∈ run.trace ∧
      Event.closeHandle created.handle ∈ run.trace) ∧
    (ServerMS_MultiMessage.main ⟨INVALID_HANDLE_VALUE, error⟩ reads buffer).map Run.exitCode =
      some 1 := by
  constructor
  · obtain ⟨bufs, -, hloop⟩ := readLoop_spec created.handle f rest hf succs hs 0 buffer
    simp only [Nat.cast_zero] at hloop
    simp [ServerMS_MultiMessage.main, hcreated, hloop, htimeout]
  · simp [ServerMS_MultiMessage.main]

/-- C7 (as amended) at one message followed by a timeout. -/
theorem multi_receiver_timeout_exit_witness :
    (ServerMS_MultiMessage.main ⟨7, 0⟩
      [⟨true, 1, [Char.ofNat 33], 0⟩, ⟨false, 0, [], ERROR_TIMEOUT⟩] []).map Run.exitCode =
      some 0 :=
  match (multi_receiver_timeout_exit ⟨7, 0⟩ [⟨true, 1, [Char.ofNat 33], 0⟩]
    ⟨false, 0, [], ERROR_TIMEOUT⟩ [] [] [] 0 (by decide) (by simp) rfl rfl).1 with
  | ⟨_, hrun, hexit, _⟩ => by
    rw [show ([⟨true, 1, [Char.ofNat 33], 0⟩, ⟨false, 0, [], ERROR_TIMEOUT⟩] :
        List ReadOutcome) = [⟨true, 1, [Char.ofNat 33], 0⟩] ++
          ⟨false, 0, [], ERROR_TIMEOUT⟩ :: [] from rfl, hrun]
    simp [hexit]

/-- C7 (as stated) fails: with the endpoint created and a first read that times
out, the multi-message receiver exits with code 0, not 1. -/
theorem multi_receiver_timeout_exit_counterexample :
    (ServerMS_MultiMessage.main ⟨7, 0⟩ [⟨false, 0, [], ERROR_TIMEOUT⟩] []).map Run.exitCode =
      some 0 ∧
    (ServerMS_MultiMessage.main ⟨7, 0⟩ [⟨false, 0, [], ERROR_TIMEOUT⟩] []).map Run.exitCode ≠
      some 1 := by
  constructor <;> decide

/-! ## The metrics of the performance harness -/

/-- When every write of the batch succeeds, all are counted as successes. -/
theorem all_writes_succeed (writes : Nat → WriteOutcome) (n : Nat)
    (h : ∀ i < n, (writes i).writeResult = true) :
    successfulWrites writes n = n ∧ failedWrites writes n = 0 := by
  have hf : failedWrites writes n = 0 := by
    have := (no_failure_iff writes n).mpr h
    exact_mod_cast this
  refine ⟨?_, hf⟩
  unfold successfulWrites
  have hlen := @List.filter_length_eq_length Nat (fun i => (writes i).writeResult)
    (List.range n)
  rw [List.length_range] at hlen
  exact hlen.mpr fun i hi => h i (List.mem_range.mp hi)

/-- The report of a run whose open succeeded is part of its trace. -/
theorem report_in_trace (mb : String → String) (argv : List String) (opened : OpenOutcome)
    (writes : Nat → WriteOutcome) (clock : Clock)
    (hopen : opened.handle ≠ INVALID_HANDLE_VALUE) (e : Event)
    (he : e ∈ ClientMS_Performance.report (successfulWrites writes 1000)
      (failedWrites writes 1000) clock) :
    e ∈ (ClientMS_Performance.main mb argv opened writes clock).trace := by
  rw [perf_main_open mb argv opened writes clock hopen,
    (batch_counters opened.handle writes).1, (batch_counters opened.handle writes).2]
  simp only [List.mem_append]
  exact Or.inl (Or.inr he)

/-- Division of a count by a zero elapsed time. -/
theorem div_by_zero_elapsed (clock : Clock) (count : Nat) (hfreq : clock.frequency ≠ 0)
    (hzero : clock.endTime = clock.startTime) :
    ClientMS_Performance.elapsedSeconds clock = Dbl.fin 0 ∧
    ClientMS_Performance.messagesPerSecond (count : Int) clock =
      (if count = 0 then Dbl.nan else Dbl.posInf) ∧
    ClientMS_Performance.bytesPerSecond (count : Int) clock =
      (if count = 0 then Dbl.nan else Dbl.posInf) := by
  have hq : (clock.frequency : ℚ) ≠ 0 := by exact_mod_cast hfreq
  have he : ClientMS_Performance.elapsedSeconds clock = Dbl.fin 0 := by
    simp [ClientMS_Performance.elapsedSeconds, Dbl.ofInt, Dbl.div, hzero, hq]
  refine ⟨he, ?_, ?_⟩
  · rw [ClientMS_Performance.messagesPerSecond, he]
    by_cases hc : count = 0
    · simp [Dbl.ofInt, Dbl.div, hc]
    · have hpos : (0 : ℚ) < (count : ℚ) := by exact_mod_cast Nat.pos_of_ne_zero hc
      simp [Dbl.ofInt, Dbl.div, hc, hpos]
  · rw [ClientMS_Performance.bytesPerSecond, he]
    have hlen : ClientMS_Performance.messageLen = 25 := by decide
    by_cases hc : count = 0
    · simp [ClientMS_Performance.totalBytes, Dbl.ofInt, Dbl.mul, Dbl.div, hc]
    · have hpos : (0 : ℚ) < (count : ℚ) := by exact_mod_cast Nat.pos_of_ne_zero hc
      simp [ClientMS_Performance.totalBytes, Dbl.ofInt, Dbl.mul, Dbl.div, hc, hpos, hlen]

/-- C9 (as amended): when the end tick count equals the start tick count (the
frequency being positive) the elapsed time is zero and the harness divides by
it without a guard: the rate and the throughput it reports are +infinity when
at least one write succeeded and NaN when none did. -/
theorem zero_elapsed_unguarded (mb : String → String) (argv : List String)
    (opened : OpenOutcome) (writes : Nat → WriteOutcome) (clock : Clock)
    (hopen : opened.handle ≠ INVALID_HANDLE_VALUE) (hfreq : 0 < clock.frequency)
    (hzero : clock.endTime = clock.startTime) :
    ClientMS_Performance.elapsedSeconds clock = Dbl.fin 0 ∧
    Event.coutFixed "Elapsed: " 3 (Dbl.fin 0) " s" ∈
      (ClientMS_Performance.main mb argv opened writes clock).trace ∧
    Event.coutFixed "Rate:    " 2
        (if successfulWrites writes 1000 = 0 then Dbl.nan else Dbl.posInf) " msg/s" ∈
      (ClientMS_Performance.main mb argv opened writes clock).trace ∧
    Event.coutFixed "Throughput: " 2
        (if successfulWrites writes 1000 = 0 then Dbl.nan else Dbl.posInf) " B/s" ∈
      (ClientMS_Performance.main mb argv opened writes clock).trace := by
  obtain ⟨he, hr, hb⟩ :=
    div_by_zero_elapsed clock (successfulWrites writes 1000) (ne_of_gt hfreq) hzero
  refine ⟨he, ?_, ?_, ?_⟩ <;>
    refine report_in_trace mb argv opened writes clock hopen _ ?_
  · simp [ClientMS_Performance.report, he]
  · simp [ClientMS_Performance.report, hr]
  · simp [ClientMS_Performance.report, hb]

/-- C9 (as amended) at a run whose 1000 writes all succeed within one tick. -/
theorem zero_elapsed_unguarded_witness :
    ClientMS_Performance.elapsedSeconds ⟨10000000, 5, 5⟩ = Dbl.fin 0 ∧
    Event.coutFixed "Elapsed: " 3 (Dbl.fin 0) " s" ∈
      (ClientMS_Performance.main id ["ClientMS_Performance.exe"] ⟨7, 0⟩
        (fun _ => ⟨true, 25, 0⟩) ⟨10000000, 5, 5⟩).trace :=
  have h := zero_elapsed_unguarded id ["ClientMS_Performance.exe"] ⟨7, 0⟩
    (fun _ => ⟨true, 25, 0⟩) ⟨10000000, 5, 5⟩ (by decide) (by decide) rfl
  ⟨h.1, h.2.1⟩

/-- C9 (as stated) fails: with equal start and end tick counts and 1000
successful writes the elapsed time is zero, the division is performed all the
same and the rate in the report is +infinity. -/
theorem zero_elapsed_guard_counterexample :
    ClientMS_Performance.elapsedSeconds ⟨10000000, 5, 5⟩ = Dbl.fin 0 ∧
    ClientMS_Performance.messagesPerSecond 1000 ⟨10000000, 5, 5⟩ = Dbl.posInf ∧
    Event.coutFixed "Rate:    " 2 Dbl.posInf " msg/s" ∈
      (ClientMS_Performance.main id ["ClientMS_Performance.exe"] ⟨7, 0⟩
        (fun _ => ⟨true, 25, 0⟩) ⟨10000000, 5, 5⟩).trace := by
  have hall : ∀ i < 1000, ((fun _ => ⟨true, 25, 0⟩ : Nat → WriteOutcome) i).writeResult = true :=
    fun _ _ => rfl
  have hs := (all_writes_succeed (fun _ => ⟨true, 25, 0⟩) 1000 hall).1
  obtain ⟨he, hr, -⟩ :=
    div_by_zero_elapsed ⟨10000000, 5, 5⟩ 1000 (by decide) rfl
  have hr2 : ClientMS_Performance.messagesPerSecond 1000 ⟨10000000, 5, 5⟩ = Dbl.posInf := by
    simpa using hr
  refine ⟨he, hr2, ?_⟩
  refine report_in_trace id _ ⟨7, 0⟩ (fun _ => ⟨true, 25, 0⟩) ⟨10000000, 5, 5⟩ (by decide) _ ?_
  rw [hs]
  simp [ClientMS_Performance.report, hr2]

/-- The metrics for a positive elapsed time, as exact quotients. -/
theorem metrics_values (clock : Clock) (count : Nat) (hpos : 0 < elapsedExact clock) :
    ClientMS_Performance.elapsedSeconds clock = Dbl.fin (elapsedExact clock) ∧
    ClientMS_Performance.messagesPerSecond (count : Int) clock =
      Dbl.fin ((count : ℚ) / elapsedExact clock) ∧
    ClientMS_Performance.bytesPerSecond (count : Int) clock =
      Dbl.fin ((count : ℚ) * 25 / elapsedExact clock) := by
  have hne : elapsedExact clock ≠ 0 := ne_of_gt hpos
  have hfreq : (clock.frequency : ℚ) ≠ 0 := by
    intro h0
    apply hne
    simp [elapsedExact, h0]
  have he : ClientMS_Performance.elapsedSeconds clock = Dbl.fin (elapsedExact clock) := by
    simp [ClientMS_Performance.elapsedSeconds, Dbl.ofInt, Dbl.div, hfreq, elapsedExact]
  have hlen : ClientMS_Performance.messageLen = 25 := by decide
  refine ⟨he, ?_, ?_⟩
  · rw [ClientMS_Performance.messagesPerSecond, he]
    simp [Dbl.ofInt, Dbl.div, hne]
  · rw [ClientMS_Performance.bytesPerSecond, he]
    simp [ClientMS_Performance.totalBytes, Dbl.ofInt, Dbl.mul, Dbl.div, hne, hlen]

/-- C10: the payload "Hello from Maislot-client" has 25 bytes; for an elapsed
time T = (endTicks - startTicks) / frequency > 0 the harness reports, in exact
arithmetic, the elapsed time T, the rate s / T and the throughput s * 25 / T,
where s is the number of successful writes of the batch (failed writes do not
enter); when all 1000 writes succeed the rate is 1000 / T, the throughput
25000 / T, the error count 0 and the exit code 0. -/
theorem metrics_exact (mb : String → String) (argv : List String) (opened : OpenOutcome)
    (writes : Nat → WriteOutcome) (clock : Clock)
    (hopen : opened.handle ≠ INVALID_HANDLE_VALUE) (hpos : 0 < elapsedExact clock) :
    ClientMS_Performance.message = "Hello from Maislot-client" ∧
    ClientMS_Performance.messageLen = 25 ∧
    ClientMS_Performance.elapsedSeconds clock = Dbl.fin (elapsedExact clock) ∧
    Event.coutFixed "Elapsed: " 3 (Dbl.fin (elapsedExact clock)) " s" ∈
      (ClientMS_Performance.main mb argv opened writes clock).trace ∧
    Event.coutFixed "Rate:    " 2
        (Dbl.fin ((successfulWrites writes 1000 : ℚ) / elapsedExact clock)) " msg/s" ∈
      (ClientMS_Performance.main mb argv opened writes clock).trace ∧
    Event.coutFixed "Throughput: " 2
        (Dbl.fin ((successfulWrites writes 1000 : ℚ) * 25 / elapsedExact clock)) " B/s" ∈
      (ClientMS_Performance.main mb argv opened writes clock).trace ∧
    ((∀ i < 1000, (writes i).writeResult = true) →
      Event.coutFixed "Rate:    " 2 (Dbl.fin (1000 / elapsedExact clock)) " msg/s" ∈
        (ClientMS_Performance.main mb argv opened writes clock).trace ∧
      Event.coutFixed "Throughput: " 2 (Dbl.fin (25000 / elapsedExact clock)) " B/s" ∈
        (ClientMS_Performance.main mb argv opened writes clock).trace ∧
      Event.cout "Errors: 0" ∈ (ClientMS_Performance.main mb argv opened writes clock).trace ∧
      (ClientMS_Performance.main mb argv opened writes clock).exitCode = 0) := by
  obtain ⟨he, hr, hb⟩ := metrics_values clock (successfulWrites writes 1000) hpos
  have hrate : Event.coutFixed "Rate:    " 2
        (Dbl.fin ((successfulWrites writes 1000 : ℚ) / elapsedExact clock)) " msg/s" ∈
      (ClientMS_Performance.main mb argv opened writes clock).trace := by
    refine report_in_trace mb argv opened writes clock hopen _ ?_
    simp [ClientMS_Performance.report, hr]
  have hthru : Event.coutFixed "Throughput: " 2
        (Dbl.fin ((successfulWrites writes 1000 : ℚ) * 25 / elapsedExact clock)) " B/s" ∈
      (ClientMS_Performance.main mb argv opened writes clock).trace := by
    refine report_in_trace mb argv opened writes clock hopen _ ?_
    simp [ClientMS_Performance.report, hb]
  refine ⟨rfl, by decide, he, ?_, hrate, hthru, ?_⟩
  · refine report_in_trace mb argv opened writes clock hopen _ ?_
    simp [ClientMS_Performance.report, he]
  · intro hall
    obtain ⟨hs, hf⟩ := all_writes_succeed writes 1000 hall
    rw [hs] at hrate hthru
    refine ⟨by simpa using hrate, ?_, ?_, ?_⟩
    · have h25 : ((1000 : Nat) : ℚ) * 25 = 25000 := by norm_num
      rw [h25] at hthru
      exact hthru
    · refine report_in_trace mb argv opened writes clock hopen _ ?_
      rw [hf]
      simp [ClientMS_Performance.report]
      exact Or.inr (Or.inr (by decide))
    · rw [perf_main_open mb argv opened writes clock hopen,
        (batch_counters opened.handle writes).2, hf]
      simp

/-- C10 at 1000 successful writes in 20000000 ticks of a 10 MHz counter, that
is in 2 seconds: 500 messages and 12500 bytes per second. -/
theorem metrics_exact_witness :
    Event.coutFixed "Rate:    " 2 (Dbl.fin 500) " msg/s" ∈
      (ClientMS_Performance.main id ["ClientMS_Performance.exe"] ⟨7, 0⟩
        (fun _ => ⟨true, 25, 0⟩) ⟨10000000, 0, 20000000⟩).trace ∧
    Event.coutFixed "Throughput: " 2 (Dbl.fin 12500) " B/s" ∈
      (ClientMS_Performance.main id ["ClientMS_Performance.exe"] ⟨7, 0⟩
        (fun _ => ⟨true, 25, 0⟩) ⟨10000000, 0, 20000000⟩).trace ∧
    (ClientMS_Performance.main id ["ClientMS_Performance.exe"] ⟨7, 0⟩
        (fun _ => ⟨true, 25, 0⟩) ⟨10000000, 0, 20000000⟩).exitCode = 0 := by
  have hT : elapsedExact ⟨10000000, 0, 20000000⟩ = 2 := by
    norm_num [elapsedExact]
  have h := (metrics_exact id ["ClientMS_Performance.exe"] ⟨7, 0⟩ (fun _ => ⟨true, 25, 0⟩)
    ⟨10000000, 0, 20000000⟩ (by decide) (by rw [hT]; norm_num)).2.2.2.2.2.2 (fun _ _ => rfl)
  rw [hT] at h
  norm_num at h
  exact ⟨h.1, h.2.1, h.2.2.2⟩

/-! ## Release of the handles -/

/-- Behind a part without `CloseHandle`, what follows the first close of a trace
is what follows that close. -/
theorem afterClose_append (h : HANDLE) (post : List Event) :
    ∀ pre : List Event, closes pre = [] →
      afterClose (pre ++ Event.closeHandle h :: post) = post := by
  intro pre
  induction pre with
  | nil =>
    intro _
    rfl
  | cons e es ih =>
    intro hpre
    cases e with
    | closeHandle x => simp [closes] at hpre
    | createFile n => exact ih (by simpa [closes] using hpre)
    | createMailslot n m t => exact ih (by simpa [closes] using hpre)
    | writeFile x b n => exact ih (by simpa [closes] using hpre)
    | readFile x n => exact ih (by simpa [closes] using hpre)
    | cout l => exact ih (by simpa [closes] using hpre)
    | cerr l => exact ih (by simpa [closes] using hpre)
    | wcout l => exact ih (by simpa [closes] using hpre)
    | coutFixed l p v u => exact ih (by simpa [closes] using hpre)

/-- The per-target send of the broadcaster keeps the release discipline. -/
theorem send_release (server msg : String) (o : TargetOutcome) :
    releaseDiscipline o.opened (ClientMS.SendMessageToServer server msg o).2 := by
  unfold releaseDiscipline
  by_cases h : o.opened.handle = INVALID_HANDLE_VALUE <;>
    cases hw : o.written.writeResult <;>
    simp [ClientMS.SendMessageToServer, ClientMS.HandleMailslotError, closes, handleCalls,
      afterClose, usesHandle, h, hw]

/-- The receiver of `ServerMS.cpp` keeps the release discipline. -/
theorem server_release (created : OpenOutcome) (read : ReadOutcome) (buffer : List Char) :
    releaseDiscipline created (ServerMS.main created read buffer).trace := by
  unfold releaseDiscipline
  by_cases h : created.handle = INVALID_HANDLE_VALUE <;>
    cases hr : read.readResult <;>
    by_cases ht : read.lastError = ERROR_TIMEOUT <;>
    by_cases hb : read.bytesRead > 0 <;>
    simp [ServerMS.main, ServerMS.HandleMailslotError, closes, handleCalls,
      afterClose, usesHandle, h, hr, ht, hb]

/-- The receiver of `ServerMS_500bytes.cpp` keeps the release discipline. -/
theorem server500_release (created : OpenOutcome) (read : ReadOutcome) (buffer : List Char) :
    releaseDiscipline created (ServerMS_500bytes.main created read buffer).trace := by
  unfold releaseDiscipline
  by_cases h : created.handle = INVALID_HANDLE_VALUE <;>
    cases hr : read.readResult <;>
    by_cases ht : read.lastError = ERROR_TIMEOUT <;>
    by_cases hb : read.bytesRead > 0 <;>
    simp [ServerMS_500bytes.main, ServerMS_500bytes.HandleMailslotError, closes, handleCalls,
      afterClose, usesHandle, h, hr, ht, hb]

/-- The batch of the harness closes nothing. -/
theorem batch_closes (hMailslot : HANDLE) (writes : Nat → WriteOutcome) :
    ∀ (n i : Nat) (successCount errorCount : Int),
      closes (ClientMS_Performance.sendLoop hMailslot writes n i successCount
        errorCount).trace = [] := by
  intro n
  induction n with
  | zero =>
    intro i successCount errorCount
    rfl
  | succ n ih =>
    intro i successCount errorCount
    cases hw : (writes i).writeResult
    · have hnext := ih (i + 1) successCount (errorCount + 1)
      rw [batch_step_failure hMailslot writes n i successCount errorCount hw]
      unfold closes at hnext ⊢
      simp only [List.filterMap_append, hnext]
      by_cases h5 : errorCount + 1 ≤ 5 <;> by_cases hp : (i + 1) % 100 = 0 <;>
        simp [h5, hp, ClientMS_Performance.HandleMailslotError]
    · have hnext := ih (i + 1) (successCount + 1) errorCount
      rw [batch_step_success hMailslot writes n i successCount errorCount hw]
      unfold closes at hnext ⊢
      simp only [List.filterMap_append, hnext]
      by_cases hp : (i + 1) % 100 = 0 <;> simp [hp]

/-- The performance harness keeps the release discipline. -/
theorem perf_release (mb : String → String) (argv : List String) (opened : OpenOutcome)
    (writes : Nat → WriteOutcome) (clock : Clock) :
    releaseDiscipline opened (ClientMS_Performance.main mb argv opened writes clock).trace := by
  unfold releaseDiscipline
  by_cases h : opened.handle = INVALID_HANDLE_VALUE
  · simp [ClientMS_Performance.main, ClientMS_Performance.HandleMailslotError, handleCalls,
      usesHandle, h]
  · have hb := batch_closes opened.handle writes ClientMS_Performance.MESSAGE_COUNT 0 0 0
    rw [if_neg h, perf_main_open mb argv opened writes clock h]
    have hpre : closes
        ([Event.cout ("Performance test: sending " ++
              toString ClientMS_Performance.MESSAGE_COUNT ++ " messages"),
            Event.wcout ("Server: " ++ ClientMS_Performance.mailslotNameW mb argv),
            Event.cout ("Message size: " ++ toString ClientMS_Performance.messageLen ++
              " bytes"),
            Event.createFile (ClientMS_Performance.mailslotNameW mb argv)] ++
          [Event.cout "Mailslot opened. Starting to send..."] ++
          (ClientMS_Performance.sendLoop opened.handle writes
            ClientMS_Performance.MESSAGE_COUNT 0 0 0).trace) = [] := by
      unfold closes at hb ⊢
      simp only [List.filterMap_append, hb]
      simp
    constructor
    · unfold closes at hpre ⊢
      simp only [List.filterMap_append] at hpre ⊢
      simp only [List.append_eq_nil] at hpre
      simp only [hpre.1.1, hpre.1.2, hpre.2]
      simp [ClientMS_Performance.report]
    · simp only [List.append_assoc, List.singleton_append, List.cons_append, List.nil_append]
      have hafter := afterClose_append opened.handle
        (ClientMS_Performance.report
            (ClientMS_Performance.sendLoop opened.handle writes
              ClientMS_Performance.MESSAGE_COUNT 0 0 0).successCount
            (ClientMS_Performance.sendLoop opened.handle writes
              ClientMS_Performance.MESSAGE_COUNT 0 0 0).errorCount clock ++
          [Event.cout "\nClient is exiting."]) _ hpre
      simp only [List.append_assoc, List.singleton_append, List.cons_append,
        List.nil_append] at hafter
      rw [hafter]
      simp [ClientMS_Performance.report, handleCalls, usesHandle]

/-- Processing a message closes nothing. -/
theorem closes_process (messageCount : Int) (bytesRead : DWORD) (buffer : List Char) :
    closes (ServerMS_MultiMessage.process messageCount bytesRead buffer) = [] := by
  unfold ServerMS_MultiMessage.process closes
  split_ifs <;> simp

/-- The read loop closes nothing, creates nothing and requests 511 bytes in
every read. -/
theorem readLoop_calls (hMailslot : HANDLE) :
    ∀ (reads : List ReadOutcome) (buffer : List Char) (messageCount : Int)
      (e : ServerMS_MultiMessage.LoopEnd),
      ServerMS_MultiMessage.readLoop hMailslot reads buffer messageCount = some e →
        closes e.trace = [] ∧ maxMessageSizes e.trace = [] ∧
          ∀ n ∈ readRequests e.trace, n = 511 := by
  intro reads
  induction reads with
  | nil =>
    intro buffer messageCount e h
    simp [ServerMS_MultiMessage.readLoop] at h
  | cons r rest ih =>
    intro buffer messageCount e h
    cases hr : r.readResult
    · rw [readLoop_failure hMailslot r rest buffer messageCount hr] at h
      simp only [Option.some.injEq] at h
      subst h
      by_cases ht : r.lastError = ERROR_TIMEOUT <;>
        simp [ht, closes, readRequests, maxMessageSizes,
          ServerMS_MultiMessage.HandleMailslotError]
    · cases hrest : ServerMS_MultiMessage.readLoop hMailslot rest
          (if r.bytesRead > 0 then (store r.data buffer).set r.bytesRead (Char.ofNat 0)
           else store r.data buffer) (messageCount + 1) with
      | none => simp [ServerMS_MultiMessage.readLoop, hr, hrest] at h
      | some e1 =>
        obtain ⟨hc, hm, hq⟩ := ih _ _ e1 hrest
        rw [readLoop_success hMailslot r rest buffer messageCount e1 hr hrest] at h
        simp only [Option.some.injEq] at h
        subst h
        have hp := closes_process (messageCount + 1) r.bytesRead (store r.data buffer)
        have hq0 : readRequests (ServerMS_MultiMessage.process (messageCount + 1) r.bytesRead
            (store r.data buffer)) = [] := by
          unfold ServerMS_MultiMessage.process readRequests
          split_ifs <;> simp
        have hm0 : maxMessageSizes (ServerMS_MultiMessage.process (messageCount + 1)
            r.bytesRead (store r.data buffer)) = [] := by
          unfold ServerMS_MultiMessage.process maxMessageSizes
          split_ifs <;> simp
        refine ⟨?_, ?_, ?_⟩
        · unfold closes at hc hp ⊢
          simp only [List.filterMap_cons, List.filterMap_append, hc, hp]
          simp
        · unfold maxMessageSizes at hm hm0 ⊢
          simp only [List.filterMap_cons, List.filterMap_append, hm, hm0]
          simp
        · unfold readRequests at hq hq0 ⊢
          simp only [List.filterMap_cons, List.filterMap_append, hq0]
          intro n hn
          simp only [List.nil_append, List.mem_cons] at hn
          rcases hn with hn | hn
          · exact hn
          · exact hq n hn

/-- The multi-message receiver keeps the release discipline on every run that
ends. -/
theorem multi_release (created : OpenOutcome) (reads : List ReadOutcome) (buffer : List Char)
    (run : Run) (hrun : ServerMS_MultiMessage.main created reads buffer = some run) :
    releaseDiscipline created run.trace := by
  unfold releaseDiscipline
  by_cases h : created.handle = INVALID_HANDLE_VALUE
  · simp only [ServerMS_MultiMessage.main, h, if_true, Option.some.injEq] at hrun
    subst hrun
    simp [ServerMS_MultiMessage.HandleMailslotError, handleCalls, usesHandle, h]
  · cases hloop : ServerMS_MultiMessage.readLoop created.handle reads buffer 0 with
    | none => simp [ServerMS_MultiMessage.main, h, hloop] at hrun
    | some e =>
      obtain ⟨hc, -, -⟩ := readLoop_calls created.handle reads buffer 0 e hloop
      simp only [ServerMS_MultiMessage.main, h, if_false, hloop, Option.some.injEq] at hrun
      subst hrun
      rw [if_neg h]
      have hpre : closes
          ([Event.createMailslot ServerMS_MultiMessage.mailslotName 300 180000,
            Event.cout "Mailslot created", Event.cout "Waiting for client messages...",
            Event.cout "Press Ctrl+C or close the window to exit"] ++ e.trace) = [] := by
        unfold closes at hc ⊢
        simp only [List.filterMap_append, hc]
        simp
      constructor
      · unfold closes at hpre ⊢
        simp only [List.filterMap_append] at hpre ⊢
        simp only [List.append_eq_nil] at hpre
        simp only [hpre.1, hpre.2]
        simp
      · simp only [List.cons_append, List.nil_append, List.append_assoc] at hpre ⊢
        have hafter := afterClose_append created.handle
          [Event.cout ("\nServer shutting down. Total messages: " ++ toString e.messageCount)]
          _ hpre
        simp only [List.cons_append, List.nil_append, List.append_assoc] at hafter
        rw [hafter]
        simp [handleCalls, usesHandle]

theorem send_closes (server msg : String) (o : TargetOutcome) :
    closes (ClientMS.SendMessageToServer server msg o).2 =
      if o.opened.ok then [o.opened.handle] else [] := by
  by_cases h : o.opened.handle = INVALID_HANDLE_VALUE <;>
    cases hw : o.written.writeResult <;>
    simp [ClientMS.SendMessageToServer, closes, ClientMS.HandleMailslotError,
      OpenOutcome.ok, h, hw]

/-- The send loop closes exactly the handles whose open succeeded, in order. -/
theorem sendLoop_closes (world : Nat → TargetOutcome) (targets : List String) :
    ∀ (i : Nat) (successCount : Int),
      closes (ClientMS.sendLoop world i targets successCount).2 =
        (List.range' i targets.length).filterMap
          (fun j => if (world j).opened.ok then some (world j).opened.handle else none) := by
  induction targets with
  | nil =>
    intro i successCount
    simp [ClientMS.sendLoop, closes]
  | cons t ts ih =>
    intro i successCount
    have hnext := ih (i + 1)
      (if (ClientMS.SendMessageToServer t ClientMS.message (world i)).1
        then successCount + 1 else successCount)
    have hc := send_closes t ClientMS.message (world i)
    simp only [ClientMS.sendLoop]
    unfold closes at hnext hc ⊢
    rw [List.filterMap_append, List.filterMap_append, List.filterMap_append, hnext, hc,
      List.length_cons, List.range'_succ]
    cases hs : (ClientMS.SendMessageToServer t ClientMS.message (world i)).1 <;>
      cases hok : (world i).opened.ok <;> simp [hok]

/-- C11: every path of the per-target send of the broadcaster, of the
performance harness and of the three receivers keeps the release discipline:
when the open or create call failed no call takes a handle (so none is closed);
when it succeeded the handle is closed exactly once, whatever the outcomes of
the write or of the reads, and no write, read or close follows that close. For
the multi-message receiver this holds on every run that ends. Over a whole
broadcast the handles closed are exactly those of the targets whose open
succeeded, in order. -/
theorem handles_released_once (server msg : String) (o : TargetOutcome)
    (mb : String → String) (argv : List String) (world : Nat → TargetOutcome)
    (opened : OpenOutcome) (writes : Nat → WriteOutcome) (clock : Clock)
    (created : OpenOutcome) (read : ReadOutcome) (reads : List ReadOutcome)
    (buffer : List Char) :
    releaseDiscipline o.opened (ClientMS.SendMessageToServer server msg o).2 ∧
    closes (ClientMS.main mb argv world).trace =
      (List.range (ClientMS.servers mb argv).length).filterMap
        (fun i => if (world i).opened.ok then some (world i).opened.handle else none) ∧
    releaseDiscipline opened (ClientMS_Performance.main mb argv opened writes clock).trace ∧
    releaseDiscipline created (ServerMS.main created read buffer).trace ∧
    releaseDiscipline created (ServerMS_500bytes.main created read buffer).trace ∧
    ∀ run, ServerMS_MultiMessage.main created reads buffer = some run →
      releaseDiscipline created run.trace := by
  refine ⟨send_release server msg o, ?_, perf_release mb argv opened writes clock,
    server_release created read buffer, server500_release created read buffer,
    fun run hrun => multi_release created reads buffer run hrun⟩
  have hloop := sendLoop_closes world (ClientMS.servers mb argv) 0 0
  unfold ClientMS.main
  simp only
  unfold closes at hloop ⊢
  rw [List.filterMap_append, hloop, List.range_eq_range']
  simp

/-! ## The receive buffer -/

/-- A prefix taken while a test holds ends before any position at which the
test fails. -/
theorem takeWhile_length_le {α : Type} (p : α → Bool) :
    ∀ (l : List α) (i : Nat) (c : α), l[i]? = some c → p c = false →
      (l.takeWhile p).length ≤ i := by
  intro l
  induction l with
  | nil =>
    intro i c h
    simp at h
  | cons a as ih =>
    intro i c h hp
    cases i with
    | zero =>
      simp at h
      subst h
      simp [List.takeWhile, hp]
    | succ j =>
      simp at h
      rw [List.takeWhile_cons]
      split_ifs
      · simp
        exact ih j c h hp
      · simp

/-- Storing the bytes of a read never shortens the buffer. -/
theorem store_length (data buffer : List Char) :
    buffer.length ≤ (store data buffer).length := by
  simp [store]
  omega

/-- The calls of `ServerMS.cpp` to `CreateMailslot` and `ReadFile`. -/
theorem server_requests (created : OpenOutcome) (read : ReadOutcome) (buffer : List Char) :
    maxMessageSizes (ServerMS.main created read buffer).trace = [300] ∧
    ∀ n ∈ readRequests (ServerMS.main created read buffer).trace, n = 511 := by
  by_cases h : created.handle = INVALID_HANDLE_VALUE <;>
    cases hr : read.readResult <;>
    by_cases ht : read.lastError = ERROR_TIMEOUT <;>
    by_cases hb : read.bytesRead > 0 <;>
    simp [ServerMS.main, ServerMS.HandleMailslotError, maxMessageSizes, readRequests,
      bufferSize, h, hr, ht, hb]

/-- The calls of `ServerMS_500bytes.cpp` to `CreateMailslot` and `ReadFile`. -/
theorem server500_requests (created : OpenOutcome) (read : ReadOutcome) (buffer : List Char) :
    maxMessageSizes (ServerMS_500bytes.main created read buffer).trace = [500] ∧
    ∀ n ∈ readRequests (ServerMS_500bytes.main created read buffer).trace, n = 511 := by
  by_cases h : created.handle = INVALID_HANDLE_VALUE <;>
    cases hr : read.readResult <;>
    by_cases ht : read.lastError = ERROR_TIMEOUT <;>
    by_cases hb : read.bytesRead > 0 <;>
    simp [ServerMS_500bytes.main, ServerMS_500bytes.HandleMailslotError, maxMessageSizes,
      readRequests, bufferSize, h, hr, ht, hb]

/-- The calls of `ServerMS_MultiMessage.cpp` to `CreateMailslot` and `ReadFile`,
on a run that ends. -/
theorem multi_requests (created : OpenOutcome) (reads : List ReadOutcome) (buffer : List Char)
    (run : Run) (hrun : ServerMS_MultiMessage.main created reads buffer = some run) :
    maxMessageSizes run.trace = [300] ∧ ∀ n ∈ readRequests run.trace, n = 511 := by
  by_cases h : created.handle = INVALID_HANDLE_VALUE
  · simp only [ServerMS_MultiMessage.main, h, if_true, Option.some.injEq] at hrun
    subst hrun
    simp [ServerMS_MultiMessage.HandleMailslotError, maxMessageSizes, readRequests]
  · cases hloop : ServerMS_MultiMessage.readLoop created.handle reads buffer 0 with
    | none => simp [ServerMS_MultiMessage.main, h, hloop] at hrun
    | some e =>
      obtain ⟨-, hm, hq⟩ := readLoop_calls created.handle reads buffer 0 e hloop
      simp only [ServerMS_MultiMessage.main, h, if_false, hloop, Option.some.injEq] at hrun
      subst hrun
      constructor
      · unfold maxMessageSizes at hm ⊢
        simp only [List.filterMap_append, hm]
        simp
      · unfold readRequests at hq ⊢
        simp only [List.filterMap_append]
        intro n hn
        simp at hn
        exact hq n (by simpa using hn)

/-- What block 3 of the multi-message loop prints for a message that is not
empty: the terminator is stored at index bytesRead before the buffer is
printed. -/
theorem process_received (messageCount : Int) (bytesRead : DWORD) (buffer : List Char)
    (hpos : 0 < bytesRead) :
    ServerMS_MultiMessage.process messageCount bytesRead buffer =
      Event.cout ("[" ++ toString messageCount ++ "] Received (" ++ toString bytesRead ++
        " bytes): " ++ cstr (buffer.set bytesRead (Char.ofNat 0))) ::
      (if messageCount % 100 = 0 then
         [Event.cout ("Processed messages: " ++ toString messageCount)]
       else []) := by
  simp [ServerMS_MultiMessage.process, hpos]

/-- One iteration of the multi-message loop on a successful read that is not
empty: the loop goes on with the buffer that holds the terminator at index
bytesRead. -/
theorem readLoop_step (hMailslot : HANDLE) (bytesRead : DWORD) (data : List Char)
    (stale : DWORD) (rest : List ReadOutcome) (buffer : List Char) (messageCount : Int)
    (hpos : 0 < bytesRead) :
    ServerMS_MultiMessage.readLoop hMailslot (⟨true, bytesRead, data, stale⟩ :: rest) buffer
        messageCount =
      (ServerMS_MultiMessage.readLoop hMailslot rest
        ((store data buffer).set bytesRead (Char.ofNat 0)) (messageCount + 1)).map fun e =>
          { messageCount := e.messageCount
            trace := Event.readFile hMailslot 511 ::
              (ServerMS_MultiMessage.process (messageCount + 1) bytesRead (store data buffer) ++
                e.trace) } := by
  cases hrest : ServerMS_MultiMessage.readLoop hMailslot rest
      ((store data buffer).set bytesRead (Char.ofNat 0)) (messageCount + 1) with
  | none => simp [ServerMS_MultiMessage.readLoop, hpos, hrest]
  | some e => simp [ServerMS_MultiMessage.readLoop, hpos, hrest, bufferSize]

/-- The multi-message loop on k successful reads, each reporting at most 511
bytes, followed by a failed one, started with a buffer of at least the declared
size: every message is processed in a buffer of at least the declared size. -/
theorem readLoop_bounds (hMailslot : HANDLE) (f : ReadOutcome) (rest : List ReadOutcome)
    (hf : f.readResult = false) :
    ∀ succs : List ReadOutcome,
      (∀ r ∈ succs, r.readResult = true ∧ r.bytesRead ≤ bufferSize - 1) →
      ∀ (i : Nat) (buffer : List Char), bufferSize ≤ buffer.length →
        ∃ bufs : List (List Char), bufs.length = succs.length ∧
          (∀ b ∈ bufs, bufferSize ≤ b.length) ∧
          ServerMS_MultiMessage.readLoop hMailslot (succs ++ f :: rest) buffer (i : Int) =
            some { messageCount := ((i + succs.length : Nat) : Int)
                   trace :=
                     (((succs.enumFrom i).zip bufs).flatMap fun p =>
                       Event.readFile hMailslot 511 ::
                         ServerMS_MultiMessage.process ((p.1.1 : Int) + 1) p.1.2.bytesRead p.2) ++
                     Event.readFile hMailslot 511 ::
                       (if f.lastError = ERROR_TIMEOUT then
                          [Event.cout "\nMessage wait timeout (3 minutes)",
                           Event.cout ("Total messages received: " ++
                             toString ((i + succs.length : Nat) : Int))]
                        else
                          ServerMS_MultiMessage.HandleMailslotError f.lastError "ReadFile") } := by
  intro succs
  induction succs with
  | nil =>
    intro _ i buffer _
    refine ⟨[], rfl, by simp, ?_⟩
    rw [List.nil_append, readLoop_failure hMailslot f rest buffer i hf]
    simp
  | cons r rs ih =>
    intro hs i buffer hbuf
    have hr : r.readResult = true := (hs r (List.mem_cons_self _ _)).1
    have hrs : ∀ x ∈ rs, x.readResult = true ∧ x.bytesRead ≤ bufferSize - 1 :=
      fun x hx => hs x (List.mem_cons_of_mem _ hx)
    have hstore : bufferSize ≤ (store r.data buffer).length :=
      le_trans hbuf (store_length r.data buffer)
    have hnext : bufferSize ≤
        (if r.bytesRead > 0 then (store r.data buffer).set r.bytesRead (Char.ofNat 0)
         else store r.data buffer).length := by
      split_ifs
      · rw [List.length_set]
        exact hstore
      · exact hstore
    obtain ⟨bufs, hlen, hall, hloop⟩ := ih hrs (i + 1) _ hnext
    refine ⟨store r.data buffer :: bufs, by simp [hlen], ?_, ?_⟩
    · intro b hb
      rcases List.mem_cons.mp hb with hb | hb
      · rw [hb]
        exact hstore
      · exact hall b hb
    · have hcast : ((i + 1 : Nat) : Int) = (i : Int) + 1 := by push_cast; rfl
      rw [hcast] at hloop
      rw [List.cons_append,
        readLoop_success hMailslot r (rs ++ f :: rest) buffer i _ hr hloop]
      have hsum : i + 1 + rs.length = i + (r :: rs).length := by
        simp [List.length_cons]
        omega
      simp only [hsum, List.enumFrom_cons, List.zip_cons_cons, List.flatMap_cons,
        List.cons_append, List.append_assoc]

/-- C12: the three receivers declare a buffer of 512 bytes, request
512 - 1 = 511 bytes in every read and pass 300 resp. 500, both at most 511, as
maximum message size to `CreateMailslot`. On a successful read that reports
bytesRead bytes, 0 < bytesRead <= 511, into a buffer of at least the declared
size, each receiver prints the buffer after storing the terminator at index
bytesRead (the traces of the two single-message receivers, block 3 of the
multi-message loop and the buffer that loop goes on with are given in full);
that index is below 512 and inside the buffer, the stored terminator is read
back at it, the string printed has at most bytesRead bytes and the buffer keeps
at least the declared size. Over a whole run of the multi-message receiver, k
successful reads of at most 511 bytes each followed by a failed one, every
message is processed in a buffer of at least the declared size, so that every
terminator index is inside it. -/
theorem receive_buffer_bound (anyCreated : OpenOutcome) (anyRead : ReadOutcome)
    (anyReads : List ReadOutcome) (anyBuffer : List Char)
    (created : OpenOutcome) (bytesRead : DWORD) (data : List Char) (stale : DWORD)
    (rest : List ReadOutcome) (buffer : List Char) (messageCount : Int)
    (succs : List ReadOutcome) (f : ReadOutcome)
    (hcreated : created.handle ≠ INVALID_HANDLE_VALUE)
    (hbuf : bufferSize ≤ buffer.length)
    (hpos : 0 < bytesRead) (hread : bytesRead ≤ bufferSize - 1)
    (hs : ∀ r ∈ succs, r.readResult = true ∧ r.bytesRead ≤ bufferSize - 1)
    (hf : f.readResult = false) :
    (ServerMS.main created ⟨true, bytesRead, data, stale⟩ buffer).trace =
      [Event.createMailslot "\\\\.\\mailslot\\Box" 300 180000,
        Event.cout "Mailslot created", Event.cout "Waiting for client message...",
        Event.readFile created.handle 511,
        Event.cout ("Received message (" ++ toString bytesRead ++ " bytes):"),
        Event.cout (cstr ((store data buffer).set bytesRead (Char.ofNat 0))),
        Event.closeHandle created.handle, Event.cout "Server shutting down."] ∧
    (ServerMS_500bytes.main created ⟨true, bytesRead, data, stale⟩ buffer).trace =
      [Event.createMailslot "\\\\.\\mailslot\\Box" 500 180000,
        Event.cout "Mailslot created", Event.cout "Max message size: 500 bytes",
        Event.cout "Waiting for client message...",
        Event.readFile created.handle 511,
        Event.cout ("Received message (" ++ toString bytesRead ++ " bytes):"),
        Event.cout (cstr ((store data buffer).set bytesRead (Char.ofNat 0))),
        Event.closeHandle created.handle, Event.cout "Server shutting down."] ∧
    ServerMS_MultiMessage.process messageCount bytesRead (store data buffer) =
      Event.cout ("[" ++ toString messageCount ++ "] Received (" ++ toString bytesRead ++
        " bytes): " ++ cstr ((store data buffer).set bytesRead (Char.ofNat 0))) ::
      (if messageCount % 100 = 0 then
         [Event.cout ("Processed messages: " ++ toString messageCount)]
       else []) ∧
    ServerMS_MultiMessage.readLoop created.handle (⟨true, bytesRead, data, stale⟩ :: rest)
        buffer messageCount =
      (ServerMS_MultiMessage.readLoop created.handle rest
        ((store data buffer).set bytesRead (Char.ofNat 0)) (messageCount + 1)).map (fun e =>
          { messageCount := e.messageCount
            trace := Event.readFile created.handle 511 ::
              (ServerMS_MultiMessage.process (messageCount + 1) bytesRead (store data buffer) ++
                e.trace) }) ∧
    bytesRead < bufferSize ∧
    bytesRead < (store data buffer).length ∧
    ((store data buffer).set bytesRead (Char.ofNat 0))[bytesRead]? = some (Char.ofNat 0) ∧
    (cstr ((store data buffer).set bytesRead (Char.ofNat 0))).length ≤ bytesRead ∧
    bufferSize ≤ ((store data buffer).set bytesRead (Char.ofNat 0)).length ∧
    (∃ (run : Run) (bufs : List (List Char)),
      ServerMS_MultiMessage.main created (succs ++ f :: rest) buffer = some run ∧
      bufs.length = succs.length ∧
      (∀ p ∈ succs.zip bufs, p.1.bytesRead < bufferSize ∧ bufferSize ≤ p.2.length) ∧
      run.trace =
        [Event.createMailslot "\\\\.\\mailslot\\Box" 300 180000,
          Event.cout "Mailslot created", Event.cout "Waiting for client messages...",
          Event.cout "Press Ctrl+C or close the window to exit"] ++
        ((succs.enum.zip bufs).flatMap fun p =>
          Event.readFile created.handle 511 ::
            ServerMS_MultiMessage.process ((p.1.1 : Int) + 1) p.1.2.bytesRead p.2) ++
        Event.readFile created.handle 511 ::
          (if f.lastError = ERROR_TIMEOUT then
             [Event.cout "\nMessage wait timeout (3 minutes)",
              Event.cout ("Total messages received: " ++ toString (succs.length : Int))]
           else ServerMS_MultiMessage.HandleMailslotError f.lastError "ReadFile") ++
        [Event.closeHandle created.handle,
          Event.cout ("\nServer shutting down. Total messages: " ++
            toString (succs.length : Int))]) ∧
    bufferSize = 512 ∧ bufferSize - 1 = 511 ∧
    (∀ n ∈ readRequests (ServerMS.main anyCreated anyRead anyBuffer).trace, n = 511) ∧
    (∀ n ∈ readRequests (ServerMS_500bytes.main anyCreated anyRead anyBuffer).trace,
      n = 511) ∧
    (∀ run, ServerMS_MultiMessage.main anyCreated anyReads anyBuffer = some run →
      ∀ n ∈ readRequests run.trace, n = 511) ∧
    maxMessageSizes (ServerMS.main anyCreated anyRead anyBuffer).trace = [300] ∧
    maxMessageSizes (ServerMS_500bytes.main anyCreated anyRead anyBuffer).trace = [500] ∧
    (∀ run, ServerMS_MultiMessage.main anyCreated anyReads anyBuffer = some run →
      maxMessageSizes run.trace = [300]) ∧
    300 ≤ bufferSize - 1 ∧ 500 ≤ bufferSize - 1 := by
  have hsize : bufferSize = 512 := rfl
  have hstore := store_length data buffer
  have hbound : (bytesRead : Nat) < 512 := Nat.lt_of_le_of_lt hread (by decide)
  have hlt : bytesRead < (store data buffer).length :=
    Nat.lt_of_lt_of_le hbound (le_trans hbuf hstore)
  have hset : ((store data buffer).set bytesRead (Char.ofNat 0))[bytesRead]? =
      some (Char.ofNat 0) := List.getElem?_set_self hlt
  refine ⟨?_, ?_, process_received messageCount bytesRead (store data buffer) hpos,
    readLoop_step created.handle bytesRead data stale rest buffer messageCount hpos,
    hbound, hlt, hset, ?_, ?_, ?_, hsize, rfl,
    (server_requests anyCreated anyRead anyBuffer).2,
    (server500_requests anyCreated anyRead anyBuffer).2,
    fun run hrun => (multi_requests anyCreated anyReads anyBuffer run hrun).2,
    (server_requests anyCreated anyRead anyBuffer).1,
    (server500_requests anyCreated anyRead anyBuffer).1,
    fun run hrun => (multi_requests anyCreated anyReads anyBuffer run hrun).1,
    by decide, by decide⟩
  · simp [ServerMS.main, hcreated, hpos, ServerMS.mailslotName, bufferSize]
  · simp [ServerMS_500bytes.main, hcreated, hpos, ServerMS_500bytes.mailslotName, bufferSize]
  · unfold cstr
    rw [String.length_mk]
    exact takeWhile_length_le _ _ _ _ hset (by simp)
  · rw [List.length_set]
    exact le_trans hbuf hstore
  · obtain ⟨bufs, hlen, hall, hloop⟩ :=
      readLoop_bounds created.handle f rest hf succs hs 0 buffer hbuf
    simp only [Nat.cast_zero, Nat.zero_add] at hloop
    have hrun : ServerMS_MultiMessage.main created (succs ++ f :: rest) buffer =
        some { trace := [Event.createMailslot "\\\\.\\mailslot\\Box" 300 180000,
                 Event.cout "Mailslot created", Event.cout "Waiting for client messages...",
                 Event.cout "Press Ctrl+C or close the window to exit"] ++
               ((succs.enum.zip bufs).flatMap fun p =>
                 Event.readFile created.handle 511 ::
                   ServerMS_MultiMessage.process ((p.1.1 : Int) + 1) p.1.2.bytesRead p.2) ++
               Event.readFile created.handle 511 ::
                 (if f.lastError = ERROR_TIMEOUT then
                    [Event.cout "\nMessage wait timeout (3 minutes)",
                     Event.cout ("Total messages received: " ++
                       toString (succs.length : Int))]
                  else ServerMS_MultiMessage.HandleMailslotError f.lastError "ReadFile") ++
               [Event.closeHandle created.handle,
                 Event.cout ("\nServer shutting down. Total messages: " ++
                   toString (succs.length : Int))]
               exitCode := 0 } := by
      simp [ServerMS_MultiMessage.main, hcreated, hloop, ServerMS_MultiMessage.mailslotName,
        List.enum]
    refine ⟨_, bufs, hrun, hlen, ?_, rfl⟩
    intro p hp
    obtain ⟨hp1, hp2⟩ := List.of_mem_zip hp
    exact ⟨Nat.lt_of_le_of_lt (hs p.1 hp1).2 (by decide), hall p.2 hp2⟩

/-- C12 at a buffer of 512 bytes holding the byte 120 throughout and a read of
the two bytes "hi": the receiver prints "hi", not the bytes behind it. -/
theorem receive_buffer_bound_witness :
    (ServerMS.main ⟨7, 0⟩ ⟨true, 2, [Char.ofNat 104, Char.ofNat 105], 0⟩
      (List.replicate 512 (Char.ofNat 120))).trace =
      [Event.createMailslot "\\\\.\\mailslot\\Box" 300 180000,
        Event.cout "Mailslot created", Event.cout "Waiting for client message...",
        Event.readFile 7 511, Event.cout "Received message (2 bytes):", Event.cout "hi",
        Event.closeHandle 7, Event.cout "Server shutting down."] ∧
    (2 : Nat) < bufferSize ∧
    ((store [Char.ofNat 104, Char.ofNat 105] (List.replicate 512 (Char.ofNat 120))).set 2
      (Char.ofNat 0))[2]? = some (Char.ofNat 0) := by
  have h := receive_buffer_bound ⟨7, 0⟩ ⟨false, 0, [], 5⟩ [] []
    ⟨7, 0⟩ 2 [Char.ofNat 104, Char.ofNat 105] 0 [] (List.replicate 512 (Char.ofNat 120)) 0
    [⟨true, 2, [Char.ofNat 104, Char.ofNat 105], 0⟩] ⟨false, 0, [], ERROR_TIMEOUT⟩
    (by decide) (by rw [List.length_replicate]; decide) (by decide) (by decide)
    (by simp [bufferSize]) rfl
  refine ⟨?_, h.2.2.2.2.1, h.2.2.2.2.2.2.1⟩
  rw [h.1]
  decide

/-! ## The two address builders -/

/-- The harness takes its target from the first argument alone. -/
theorem mailslotNameW_first (mb : String → String) (prog h : String) (more : List String) :
    ClientMS_Performance.mailslotNameW mb (prog :: h :: more) =
      "\\\\" ++ ClientMS_Performance.to_wstring_from_ansi mb h ++ "\\mailslot\\Box" := rfl

/-- The target of the harness is the name it opens. -/
theorem perf_opens_target (mb : String → String) (argv : List String) (opened : OpenOutcome)
    (writes : Nat → WriteOutcome) (clock : Clock) :
    Event.createFile (ClientMS_Performance.mailslotNameW mb argv) ∈
      (ClientMS_Performance.main mb argv opened writes clock).trace := by
  by_cases h : opened.handle = INVALID_HANDLE_VALUE
  · simp [ClientMS_Performance.main, h]
  · rw [perf_main_open mb argv opened writes clock h]
    simp

/-- C13: the performance harness builds its target from its first argument
only; with a conversion that is the identity on ASCII strings, its address for
a specifier h equals the address the resolver of the broadcaster produces for
the one-element list [h] exactly when h is not "localhost"; both give
`\\.\mailslot\Box` for "." and for no argument, while for "localhost" the
harness gives `\\localhost\mailslot\Box` and the broadcaster `\\.\mailslot\Box`. -/
theorem address_builders_agree (mb : String → String) (prog h : String) (more : List String)
    (opened : OpenOutcome) (writes : Nat → WriteOutcome) (clock : Clock)
    (hascii : ∀ s : String, (∀ c ∈ s.data, c.toNat < 128) → mb s = s) :
    ClientMS_Performance.mailslotNameW mb (prog :: h :: more) =
      ClientMS_Performance.mailslotNameW mb [prog, h] ∧
    Event.createFile (ClientMS_Performance.mailslotNameW mb [prog, h]) ∈
      (ClientMS_Performance.main mb (prog :: h :: more) opened writes clock).trace ∧
    (ClientMS.servers mb [prog, h] = [ClientMS_Performance.mailslotNameW mb [prog, h]] ↔
      h ≠ "localhost") ∧
    ClientMS_Performance.mailslotNameW mb [prog, "."] = "\\\\.\\mailslot\\Box" ∧
    ClientMS.servers mb [prog, "."] = ["\\\\.\\mailslot\\Box"] ∧
    ClientMS_Performance.mailslotNameW mb [prog] = "\\\\.\\mailslot\\Box" ∧
    ClientMS.servers mb [prog] = ["\\\\.\\mailslot\\Box"] ∧
    ClientMS_Performance.mailslotNameW mb [prog, "localhost"] =
      "\\\\localhost\\mailslot\\Box" ∧
    ClientMS.servers mb [prog, "localhost"] = ["\\\\.\\mailslot\\Box"] := by
  have hdot : mb "." = "." := hascii "." (by decide)
  have hhost : mb "localhost" = "localhost" := hascii "localhost" (by decide)
  have hpdot : ClientMS_Performance.mailslotNameW mb [prog, "."] = "\\\\.\\mailslot\\Box" := by
    rw [mailslotNameW_first]
    simp [ClientMS_Performance.to_wstring_from_ansi, hdot]
  have hphost : ClientMS_Performance.mailslotNameW mb [prog, "localhost"] =
      "\\\\localhost\\mailslot\\Box" := by
    rw [mailslotNameW_first]
    simp [ClientMS_Performance.to_wstring_from_ansi, hhost]
  have hsdot : ClientMS.servers mb [prog, "."] = ["\\\\.\\mailslot\\Box"] := by
    simp [ClientMS.servers]
  have hshost : ClientMS.servers mb [prog, "localhost"] = ["\\\\.\\mailslot\\Box"] := by
    simp [ClientMS.servers]
  refine ⟨rfl, ?_, ?_, hpdot, hsdot, rfl, by simp [ClientMS.servers], hphost, hshost⟩
  · have := perf_opens_target mb (prog :: h :: more) opened writes clock
    exact this
  · constructor
    · intro heq hl
      subst hl
      rw [hshost, hphost] at heq
      exact absurd heq (by decide)
    · intro hne
      by_cases hd : h = "."
      · subst hd
        rw [hsdot, hpdot]
      · rw [servers_cons_cons, mailslotNameW_first]
        simp [hd, hne, ClientMS.to_wstring_from_ansi,
          ClientMS_Performance.to_wstring_from_ansi]

/-- C13 at the specifier "HOST" with the identity as conversion. -/
theorem address_builders_agree_witness :
    ClientMS.servers id ["client.exe", "HOST"] =
      [ClientMS_Performance.mailslotNameW id ["client.exe", "HOST"]] ∧
    ClientMS_Performance.mailslotNameW id ["client.exe", "localhost"] =
      "\\\\localhost\\mailslot\\Box" ∧
    ClientMS.servers id ["client.exe", "localhost"] = ["\\\\.\\mailslot\\Box"] :=
  have h := address_builders_agree id "client.exe" "HOST" [] ⟨7, 0⟩ (fun _ => ⟨true, 25, 0⟩)
    ⟨10000000, 0, 20000000⟩ (fun _ _ => rfl)
  ⟨h.2.2.1.mpr (by decide), h.2.2.2.2.2.2.2.1, h.2.2.2.2.2.2.2.2⟩

end Mailslots
